import Mathlib

/-!
Verification of the admira-etl core pipeline (normalize → validate →
deduplicate → score → join → aggregate), shallowly embedded from
`internal/metrics` (calculator) and `internal/transformer` (normalizer,
deduplicator, quality reporter) of the Go sources.

Modelling conventions:
* Go `float64` values flowing through `safeDivide` are modelled by `GoFloat`,
  exact rationals extended with the IEEE special values NaN and ±Inf
  (finite arithmetic is exact; binary rounding/overflow of the finite range
  is not modelled).  Float fields that are only summed (cost, amount,
  revenue, quality scores) are modelled as plain `ℚ`.
* Go `int` is modelled as `Int` for data fields and `Nat` for counters that
  only ever increment from zero; no arithmetic near 2^63 occurs.
* Go `time.Time` is modelled by `GoDate` (the calendar/clock fields the
  program reads); `time.Time.Format("2006-01-02")` becomes `GoDate.formatDay`.
* Go `map[string]FieldQuality` is modelled as an association list with
  Go-map assignment semantics (`assocSet`: replace if present else append);
  Go map iteration order (nondeterministic) is modelled as first-insertion
  order wherever the program iterates a map.
-/

namespace AdmiraETL

/-! ## Go float64 model: exact rationals plus IEEE special values -/

/-- A Go `float64` as seen by `safeDivide`: a finite value (exact rational),
NaN, or a signed infinity. -/
inductive GoFloat where
  | finite (q : ℚ)
  | nan
  | inf (pos : Bool)
deriving DecidableEq, Repr

namespace GoFloat

/-- Go `x == 0` comparison (NaN and ±Inf compare unequal to zero). -/
def isZero : GoFloat → Bool
  | finite q => q == 0
  | _ => false

/-- `math.IsNaN`. -/
def isNaN : GoFloat → Bool
  | nan => true
  | _ => false

/-- `math.IsInf(x, 0)`. -/
def isInf : GoFloat → Bool
  | inf _ => true
  | _ => false

/-- IEEE division semantics at the level of this abstraction (the sign of a
zero/infinite result is tracked only loosely; `safeDivide` discards all
non-finite results anyway). -/
def div : GoFloat → GoFloat → GoFloat
  | nan, _ => nan
  | _, nan => nan
  | inf _, inf _ => nan
  | inf b, finite q => if q < 0 then inf (!b) else inf b
  | finite _, inf _ => finite 0
  | finite a, finite b =>
      if b == 0 then (if a == 0 then nan else inf (decide (0 ≤ a)))
      else finite (a / b)

end GoFloat

/-- Go `math.Round`: round to the nearest integer, halves away from zero. -/
def mathRound (q : ℚ) : ℚ :=
  if q < 0 then -(⌊-q + 1/2⌋ : ℤ) else ((⌊q + 1/2⌋ : ℤ) : ℚ)

/-- `math.Round(result*1000) / 1000` on a finite value (non-finite values are
passed through; `safeDivide` never reaches this case with them). -/
def GoFloat.round3 : GoFloat → GoFloat
  | .finite q => .finite (mathRound (q * 1000) / 1000)
  | x => x

/-- `Calculator.safeDivide` from `internal/metrics/calculator.go`. -/
def safeDivide (numerator denominator : GoFloat) : GoFloat :=
  if denominator.isZero then .finite 0
  else
    let result := numerator.div denominator
    if result.isNaN || result.isInf then .finite 0
    else result.round3

/-! ## Strings and numbers -/

/-- The decimal digits of a natural number, most significant first
(Go `strconv`/`fmt` `%d` formatting of a non-negative integer, via the
kernel-computable core digit printer). -/
def natChars (n : Nat) : List Char := Nat.toDigits 10 n

/-- Go `fmt` `%d` formatting of a natural number. -/
def natStr (n : Nat) : String := ⟨natChars n⟩

/-- Zero-pad to width 2 (Go layout element `01`/`02`/`15`/`04`/`05`). -/
def pad2 (n : Nat) : List Char :=
  List.replicate (2 - (natChars n).length) '0' ++ natChars n

/-- Zero-pad to width 4 (Go layout element `2006`). -/
def pad4 (n : Nat) : List Char :=
  List.replicate (4 - (natChars n).length) '0' ++ natChars n

/-! ## Go `time.Time` model -/

/-- The calendar/clock content of a Go `time.Time` that the program reads. -/
structure GoDate where
  year : Nat
  month : Nat
  day : Nat
  hour : Nat
  minute : Nat
  second : Nat
deriving DecidableEq, Repr

/-- The Go zero `time.Time{}`: January 1, year 1, 00:00:00. -/
def goZeroTime : GoDate := ⟨1, 1, 1, 0, 0, 0⟩

/-- `t.Format("2006-01-02")`, as a character list. -/
def GoDate.formatDayChars (d : GoDate) : List Char :=
  pad4 d.year ++ '-' :: pad2 d.month ++ '-' :: pad2 d.day

/-- `t.Format("2006-01-02")`. -/
def GoDate.formatDay (d : GoDate) : String := ⟨d.formatDayChars⟩

/-- Go `unicode.IsSpace` restricted to the whitespace the pipeline can
meet (ASCII whitespace plus NEL and NBSP). -/
def goIsSpace (c : Char) : Bool :=
  c = ' ' || c = '\t' || c = '\n' || c.toNat = 11 || c.toNat = 12 ||
  c = '\r' || c.toNat = 133 || c.toNat = 160

/-- Go `strings.TrimSpace`. -/
def trimSpace (s : String) : String :=
  ⟨((s.data.dropWhile goIsSpace).reverse.dropWhile goIsSpace).reverse⟩

/-! ## Date and datetime parsing (Go `time.Parse` at the layouts used) -/

/-- ASCII decimal digit test. -/
def isDigitCh (c : Char) : Bool := 48 ≤ c.toNat && c.toNat ≤ 57

/-- Digit value of an ASCII digit character. -/
def dv (c : Char) : Nat := c.toNat - 48

/-- Gregorian leap year. -/
def isLeapYear (y : Nat) : Bool := (y % 4 == 0 && y % 100 != 0) || y % 400 == 0

/-- Days in a month, as `time.Parse` validates the day field. -/
def daysInMonth (y m : Nat) : Nat :=
  if m == 2 then (if isLeapYear y then 29 else 28)
  else if m == 4 || m == 6 || m == 9 || m == 11 then 30
  else 31

/-- Range validation `time.Parse` applies to a calendar date. -/
def checkDate (y mo da : Nat) : Bool :=
  1 ≤ mo && mo ≤ 12 && 1 ≤ da && da ≤ daysInMonth y mo

/-- Range validation `time.Parse` applies to a clock time. -/
def checkTime (h mi se : Nat) : Bool := h ≤ 23 && mi ≤ 59 && se ≤ 59

/-- `time.Parse("2006" sep "01" sep "02", s)`: four-digit year, two-digit
month and day, fixed separator. -/
def parseDateSep (sep : Char) (s : String) : Option GoDate :=
  match s.data with
  | [y1, y2, y3, y4, c1, m1, m2, c2, d1, d2] =>
      if c1 = sep && c2 = sep && [y1, y2, y3, y4, m1, m2, d1, d2].all isDigitCh then
        let y := ((dv y1 * 10 + dv y2) * 10 + dv y3) * 10 + dv y4
        let mo := dv m1 * 10 + dv m2
        let da := dv d1 * 10 + dv d2
        if checkDate y mo da then some ⟨y, mo, da, 0, 0, 0⟩ else none
      else none
  | _ => none

/-- The date-format loop of `validateAndParseDate`: try `2006-01-02` then
`2006/01/02`, first success wins. -/
def timeParseDate (s : String) : Option GoDate :=
  match parseDateSep '-' s with
  | some d => some d
  | none => parseDateSep '/' s

/-- Parse the clock part `HH:MM:SS` (six digit chars already split out). -/
def parseClock (y mo da : Nat) (h1 h2 i1 i2 s1 s2 : Char) : Option GoDate :=
  if [h1, h2, i1, i2, s1, s2].all isDigitCh then
    let h := dv h1 * 10 + dv h2
    let mi := dv i1 * 10 + dv i2
    let se := dv s1 * 10 + dv s2
    if checkDate y mo da && checkTime h mi se then some ⟨y, mo, da, h, mi, se⟩
    else none
  else none

/-- `time.Parse("2006-01-02T15:04:05Z", s)` (trailing `Z` is a literal). -/
def parseDT_ISO (s : String) : Option GoDate :=
  match s.data with
  | [y1, y2, y3, y4, '-', m1, m2, '-', d1, d2, 'T', h1, h2, ':', i1, i2, ':', s1, s2, 'Z'] =>
      if [y1, y2, y3, y4, m1, m2, d1, d2].all isDigitCh then
        parseClock (((dv y1 * 10 + dv y2) * 10 + dv y3) * 10 + dv y4)
          (dv m1 * 10 + dv m2) (dv d1 * 10 + dv d2) h1 h2 i1 i2 s1 s2
      else none
  | _ => none

/-- `time.Parse("2006-01-02T15:04:05.000Z", s)` (exactly three fractional
digits, which the model truncates as the program never reads them). -/
def parseDT_ISOMs (s : String) : Option GoDate :=
  match s.data with
  | [y1, y2, y3, y4, '-', m1, m2, '-', d1, d2, 'T', h1, h2, ':', i1, i2, ':', s1, s2,
     '.', f1, f2, f3, 'Z'] =>
      if [y1, y2, y3, y4, m1, m2, d1, d2, f1, f2, f3].all isDigitCh then
        parseClock (((dv y1 * 10 + dv y2) * 10 + dv y3) * 10 + dv y4)
          (dv m1 * 10 + dv m2) (dv d1 * 10 + dv d2) h1 h2 i1 i2 s1 s2
      else none
  | _ => none

/-- `time.Parse("2006" sep "01" sep "02" ++ " 15:04:05", s)`. -/
def parseDT_Space (sep : Char) (s : String) : Option GoDate :=
  match s.data with
  | [y1, y2, y3, y4, c1, m1, m2, c2, d1, d2, ' ', h1, h2, ':', i1, i2, ':', s1, s2] =>
      if c1 = sep && c2 = sep && [y1, y2, y3, y4, m1, m2, d1, d2].all isDigitCh then
        parseClock (((dv y1 * 10 + dv y2) * 10 + dv y3) * 10 + dv y4)
          (dv m1 * 10 + dv m2) (dv d1 * 10 + dv d2) h1 h2 i1 i2 s1 s2
      else none
  | _ => none

/-- The datetime-format loop of `validateAndParseDateTime`: the four layouts
tried in program order, first success wins. -/
def timeParseDateTime (s : String) : Option GoDate :=
  match parseDT_ISO s with
  | some d => some d
  | none =>
    match parseDT_ISOMs s with
    | some d => some d
    | none =>
      match parseDT_Space '-' s with
      | some d => some d
      | none => parseDT_Space '/' s

/-! ## Data-quality model (`internal/models`) -/

/-- The dynamic `original_value interface{}` field: the closed set of raw
value types the validators store. -/
inductive OrigValue where
  | str (s : String)
  | int (n : Int)
  | float (q : ℚ)
  | optStr (o : Option String)
deriving DecidableEq, Repr

/-- `models.FieldQuality`. -/
structure FieldQuality where
  isValid : Bool
  description : String
  originalValue : OrigValue
deriving DecidableEq, Repr

/-- `models.RecordQuality`; `fieldErrors` models the Go map as an
association list in insertion order. -/
structure RecordQuality where
  recordID : String
  isValid : Bool
  fieldErrors : List (String × FieldQuality)
  errorCount : Nat
deriving DecidableEq, Repr

/-- Go map assignment `m[k] = v`: replace the binding if the key is present,
otherwise add it. -/
def assocSet (m : List (String × FieldQuality)) (k : String) (v : FieldQuality) :
    List (String × FieldQuality) :=
  if m.any (fun p => p.1 == k) then m.map (fun p => if p.1 == k then (k, v) else p)
  else m ++ [(k, v)]

/-- The update shape every field validator applies to the quality
accumulator: write the field's `FieldQuality` entry and add one to the error
count exactly when the entry is invalid. -/
def qualityStep (q : RecordQuality) (name : String) (fq : FieldQuality) : RecordQuality :=
  { q with
    fieldErrors := assocSet q.fieldErrors name fq,
    errorCount := q.errorCount + cond fq.isValid 0 1 }

/-! ## Raw and normalized records (`internal/models`) -/

/-- `models.AdsRecord` (raw). -/
structure AdsRecord where
  date : String
  campaignID : String
  channel : String
  clicks : Int
  impressions : Int
  cost : ℚ
  utmCampaign : String
  utmSource : Option String
  utmMedium : Option String
deriving DecidableEq, Repr

/-- `models.CRMRecord` (raw). -/
structure CRMRecord where
  opportunityID : String
  contactEmail : String
  stage : String
  amount : ℚ
  createdAt : String
  utmCampaign : String
  utmSource : Option String
  utmMedium : Option String
deriving DecidableEq, Repr

/-- `models.NormalizedAdsRecord`. -/
structure NormalizedAdsRecord where
  date : GoDate
  campaignID : String
  channel : String
  clicks : Int
  impressions : Int
  cost : ℚ
  utmCampaign : String
  utmSource : String
  utmMedium : String
  utmKey : String
  quality : RecordQuality
deriving DecidableEq, Repr

/-- `models.NormalizedCRMRecord`. -/
structure NormalizedCRMRecord where
  opportunityID : String
  contactEmail : String
  stage : String
  amount : ℚ
  createdAt : GoDate
  utmCampaign : String
  utmSource : String
  utmMedium : String
  utmKey : String
  quality : RecordQuality
deriving DecidableEq, Repr

/-! ## Field validators (`internal/transformer`)

Each Go validator mutates the per-record `RecordQuality` accumulator in
place; the embedding passes the accumulator explicitly and returns the
coerced value together with the updated accumulator. -/

/-- Character class `[a-zA-Z0-9._%+-]` of the email regex's local part. -/
def emailLocalCh (c : Char) : Bool :=
  c.isAlpha || isDigitCh c || c = '.' || c = '_' || c = '%' || c = '+' || c = '-'

/-- Character class `[a-zA-Z0-9.-]` of the email regex's domain part. -/
def emailDomainCh (c : Char) : Bool :=
  c.isAlpha || isDigitCh c || c = '.' || c = '-'

/-- Whole-string match of the transformer's email regexp
`^[a-zA-Z0-9._%+-]+@[a-zA-Z0-9.-]+\.[a-zA-Z]{2,}$`.  A match exists iff the
string splits at its unique `@` and the domain splits at its last `.` into a
nonempty class-conforming prefix and an all-alphabetic suffix of length ≥ 2. -/
def emailRegexMatch (s : String) : Bool :=
  match s.data.splitOn '@' with
  | [loc, dom] =>
      let tldRev := dom.reverse.takeWhile (· ≠ '.')
      let preRev := dom.reverse.dropWhile (· ≠ '.')
      match preRev with
      | [] => false
      | _ :: pre =>
          (!loc.isEmpty) && loc.all emailLocalCh &&
          (!pre.isEmpty) && pre.all emailDomainCh &&
          tldRev.length ≥ 2 && tldRev.all Char.isAlpha
  | _ => false

/-- `validateAndParseDate`. -/
def validateAndParseDate (dateStr : String) (fieldName : String) (q : RecordQuality) :
    GoDate × RecordQuality :=
  if trimSpace dateStr = "" then
    (goZeroTime,
      { q with
        fieldErrors :=
          assocSet q.fieldErrors fieldName ⟨false, "Missing - Date field is empty", .str dateStr⟩,
        errorCount := q.errorCount + 1 })
  else
    match timeParseDate dateStr with
    | some date =>
        (date, { q with
          fieldErrors :=
            assocSet q.fieldErrors fieldName ⟨true, "Valid date", .str dateStr⟩ })
    | none =>
        (goZeroTime,
          { q with
            fieldErrors :=
              assocSet q.fieldErrors fieldName
                ⟨false, "Invalid date format - Expected YYYY-MM-DD or YYYY/MM/DD", .str dateStr⟩,
            errorCount := q.errorCount + 1 })

/-- `validateCampaignID`. -/
def validateCampaignID (id : String) (fieldName : String) (q : RecordQuality) :
    String × RecordQuality :=
  if trimSpace id = "" then
    ("unknown",
      { q with
        fieldErrors :=
          assocSet q.fieldErrors fieldName
            ⟨false, "Missing - Campaign ID is empty, using 'unknown'", .str id⟩,
        errorCount := q.errorCount + 1 })
  else
    (id, { q with
      fieldErrors :=
        assocSet q.fieldErrors fieldName ⟨true, "Valid campaign ID", .str id⟩ })

/-- The fixed channel whitelist of `validateChannel`. -/
def validChannels : List String :=
  ["google_ads", "facebook_ads", "tiktok_ads", "linkedin_ads", "twitter_ads"]

/-- `validateChannel`. -/
def validateChannel (channel : String) (fieldName : String) (q : RecordQuality) :
    String × RecordQuality :=
  if trimSpace channel = "" then
    ("unknown",
      { q with
        fieldErrors :=
          assocSet q.fieldErrors fieldName ⟨false, "Missing - Channel is empty", .str channel⟩,
        errorCount := q.errorCount + 1 })
  else if validChannels.contains channel then
    (channel, { q with
      fieldErrors :=
        assocSet q.fieldErrors fieldName ⟨true, "Valid channel", .str channel⟩ })
  else
    (channel,
      { q with
        fieldErrors :=
          assocSet q.fieldErrors fieldName
            ⟨false, "Unknown channel type: " ++ channel, .str channel⟩,
        errorCount := q.errorCount + 1 })

/-- `validateClicks`. -/
def validateClicks (clicks : Int) (fieldName : String) (q : RecordQuality) :
    Int × RecordQuality :=
  if clicks < 0 then
    (0,
      { q with
        fieldErrors :=
          assocSet q.fieldErrors fieldName
            ⟨false, "Invalid - Clicks cannot be negative, setting to 0", .int clicks⟩,
        errorCount := q.errorCount + 1 })
  else
    (clicks, { q with
      fieldErrors :=
        assocSet q.fieldErrors fieldName ⟨true, "Valid clicks count", .int clicks⟩ })

/-- `validateImpressions`. -/
def validateImpressions (impressions : Int) (fieldName : String) (q : RecordQuality) :
    Int × RecordQuality :=
  if impressions < 0 then
    (0,
      { q with
        fieldErrors :=
          assocSet q.fieldErrors fieldName
            ⟨false, "Invalid - Impressions cannot be negative, setting to 0", .int impressions⟩,
        errorCount := q.errorCount + 1 })
  else
    (impressions, { q with
      fieldErrors :=
        assocSet q.fieldErrors fieldName ⟨true, "Valid impressions count", .int impressions⟩ })

/-- `validateCost`. -/
def validateCost (cost : ℚ) (fieldName : String) (q : RecordQuality) :
    ℚ × RecordQuality :=
  if cost < 0 then
    (0,
      { q with
        fieldErrors :=
          assocSet q.fieldErrors fieldName
            ⟨false, "Invalid - Cost cannot be negative, setting to 0", .float cost⟩,
        errorCount := q.errorCount + 1 })
  else
    (cost, { q with
      fieldErrors :=
        assocSet q.fieldErrors fieldName ⟨true, "Valid cost amount", .float cost⟩ })

/-- `validateOpportunityID`. -/
def validateOpportunityID (id : String) (fieldName : String) (q : RecordQuality) :
    String × RecordQuality :=
  if trimSpace id = "" then
    ("unknown",
      { q with
        fieldErrors :=
          assocSet q.fieldErrors fieldName
            ⟨false, "Missing - Opportunity ID is empty", .str id⟩,
        errorCount := q.errorCount + 1 })
  else
    (id, { q with
      fieldErrors :=
        assocSet q.fieldErrors fieldName ⟨true, "Valid opportunity ID", .str id⟩ })

/-- `validateEmail`. -/
def validateEmail (email : String) (fieldName : String) (q : RecordQuality) :
    String × RecordQuality :=
  if trimSpace email = "" then
    (email,
      { q with
        fieldErrors :=
          assocSet q.fieldErrors fieldName ⟨false, "Missing - Email is empty", .str email⟩,
        errorCount := q.errorCount + 1 })
  else if !emailRegexMatch email then
    (email,
      { q with
        fieldErrors :=
          assocSet q.fieldErrors fieldName ⟨false, "Invalid email format", .str email⟩,
        errorCount := q.errorCount + 1 })
  else
    (email, { q with
      fieldErrors :=
        assocSet q.fieldErrors fieldName ⟨true, "Valid email", .str email⟩ })

/-- The fixed stage whitelist of `validateStage`. -/
def validStages : List String := ["lead", "opportunity", "closed_won", "closed_lost"]

/-- `validateStage`. -/
def validateStage (stage : String) (fieldName : String) (q : RecordQuality) :
    String × RecordQuality :=
  if trimSpace stage = "" then
    ("unknown",
      { q with
        fieldErrors :=
          assocSet q.fieldErrors fieldName ⟨false, "Missing - Stage is empty", .str stage⟩,
        errorCount := q.errorCount + 1 })
  else if validStages.contains stage then
    (stage, { q with
      fieldErrors :=
        assocSet q.fieldErrors fieldName ⟨true, "Valid stage", .str stage⟩ })
  else
    (stage,
      { q with
        fieldErrors :=
          assocSet q.fieldErrors fieldName ⟨false, "Unknown stage: " ++ stage, .str stage⟩,
        errorCount := q.errorCount + 1 })

/-- `validateAmount`. -/
def validateAmount (amount : ℚ) (fieldName : String) (q : RecordQuality) :
    ℚ × RecordQuality :=
  if amount < 0 then
    (0,
      { q with
        fieldErrors :=
          assocSet q.fieldErrors fieldName
            ⟨false, "Invalid - Amount cannot be negative, setting to 0", .float amount⟩,
        errorCount := q.errorCount + 1 })
  else
    (amount, { q with
      fieldErrors :=
        assocSet q.fieldErrors fieldName ⟨true, "Valid amount", .float amount⟩ })

/-- `validateAndParseDateTime`. -/
def validateAndParseDateTime (dateTimeStr : String) (fieldName : String) (q : RecordQuality) :
    GoDate × RecordQuality :=
  if trimSpace dateTimeStr = "" then
    (goZeroTime,
      { q with
        fieldErrors :=
          assocSet q.fieldErrors fieldName
            ⟨false, "Missing - DateTime field is empty", .str dateTimeStr⟩,
        errorCount := q.errorCount + 1 })
  else
    match timeParseDateTime dateTimeStr with
    | some dateTime =>
        (dateTime, { q with
          fieldErrors :=
            assocSet q.fieldErrors fieldName ⟨true, "Valid datetime", .str dateTimeStr⟩ })
    | none =>
        (goZeroTime,
          { q with
            fieldErrors :=
              assocSet q.fieldErrors fieldName
                ⟨false, "Invalid datetime format - Expected ISO format or YYYY-MM-DD HH:MM:SS",
                  .str dateTimeStr⟩,
            errorCount := q.errorCount + 1 })

/-- `validateUTMCampaign`. -/
def validateUTMCampaign (campaign : String) (fieldName : String) (q : RecordQuality) :
    String × RecordQuality :=
  if trimSpace campaign = "" then
    ("unknown",
      { q with
        fieldErrors :=
          assocSet q.fieldErrors fieldName
            ⟨false, "Missing - UTM Campaign is empty, using 'unknown'", .str campaign⟩,
        errorCount := q.errorCount + 1 })
  else
    (campaign, { q with
      fieldErrors :=
        assocSet q.fieldErrors fieldName ⟨true, "Valid UTM campaign", .str campaign⟩ })

/-- `validateUTMSource` (pointer-typed raw field). -/
def validateUTMSource (source : Option String) (fieldName : String) (q : RecordQuality) :
    String × RecordQuality :=
  match source with
  | none =>
      ("unknown",
        { q with
          fieldErrors :=
            assocSet q.fieldErrors fieldName
              ⟨false, "Missing - UTM Source is null or empty, using 'unknown'", .optStr source⟩,
          errorCount := q.errorCount + 1 })
  | some s =>
      if trimSpace s = "" then
        ("unknown",
          { q with
            fieldErrors :=
              assocSet q.fieldErrors fieldName
                ⟨false, "Missing - UTM Source is null or empty, using 'unknown'", .optStr source⟩,
            errorCount := q.errorCount + 1 })
      else
        (trimSpace s, { q with
          fieldErrors :=
            assocSet q.fieldErrors fieldName ⟨true, "Valid UTM source", .str s⟩ })

/-- `validateUTMMedium` (pointer-typed raw field). -/
def validateUTMMedium (medium : Option String) (fieldName : String) (q : RecordQuality) :
    String × RecordQuality :=
  match medium with
  | none =>
      ("unknown",
        { q with
          fieldErrors :=
            assocSet q.fieldErrors fieldName
              ⟨false, "Missing - UTM Medium is null or empty, using 'unknown'", .optStr medium⟩,
          errorCount := q.errorCount + 1 })
  | some s =>
      if trimSpace s = "" then
        ("unknown",
          { q with
            fieldErrors :=
              assocSet q.fieldErrors fieldName
                ⟨false, "Missing - UTM Medium is null or empty, using 'unknown'", .optStr medium⟩,
            errorCount := q.errorCount + 1 })
      else
        (trimSpace s, { q with
          fieldErrors :=
            assocSet q.fieldErrors fieldName ⟨true, "Valid UTM medium", .str s⟩ })

/-- `generateUTMKey`. -/
def generateUTMKey (campaign source medium : String) : String :=
  (if trimSpace campaign = "" then "unknown" else campaign) ++ "|" ++ source ++ "|" ++ medium

/-! ## Record normalization (`NormalizeAdsRecords` / `NormalizeCRMRecords`) -/

/-- The body of the `NormalizeAdsRecords` loop for the record at index `i`:
a fresh quality accumulator is threaded through the field validators in
struct-literal order, the UTM key is derived from the three validated UTM
fields, and `is_valid` is finalized from the error count. -/
def normalizeAdsRecord (i : Nat) (r : AdsRecord) : NormalizedAdsRecord :=
  let q0 : RecordQuality := ⟨"ads_" ++ natStr i, true, [], 0⟩
  let p1 := validateAndParseDate r.date "date" q0
  let p2 := validateCampaignID r.campaignID "campaign_id" p1.2
  let p3 := validateChannel r.channel "channel" p2.2
  let p4 := validateClicks r.clicks "clicks" p3.2
  let p5 := validateImpressions r.impressions "impressions" p4.2
  let p6 := validateCost r.cost "cost" p5.2
  let p7 := validateUTMCampaign r.utmCampaign "utm_campaign" p6.2
  let p8 := validateUTMSource r.utmSource "utm_source" p7.2
  let p9 := validateUTMMedium r.utmMedium "utm_medium" p8.2
  { date := p1.1, campaignID := p2.1, channel := p3.1, clicks := p4.1,
    impressions := p5.1, cost := p6.1, utmCampaign := p7.1, utmSource := p8.1,
    utmMedium := p9.1, utmKey := generateUTMKey p7.1 p8.1 p9.1,
    quality := { p9.2 with isValid := p9.2.errorCount == 0 } }

/-- The body of the `NormalizeCRMRecords` loop for the record at index `i`. -/
def normalizeCRMRecord (i : Nat) (r : CRMRecord) : NormalizedCRMRecord :=
  let q0 : RecordQuality := ⟨"crm_" ++ natStr i, true, [], 0⟩
  let p1 := validateOpportunityID r.opportunityID "opportunity_id" q0
  let p2 := validateEmail r.contactEmail "contact_email" p1.2
  let p3 := validateStage r.stage "stage" p2.2
  let p4 := validateAmount r.amount "amount" p3.2
  let p5 := validateAndParseDateTime r.createdAt "created_at" p4.2
  let p6 := validateUTMCampaign r.utmCampaign "utm_campaign" p5.2
  let p7 := validateUTMSource r.utmSource "utm_source" p6.2
  let p8 := validateUTMMedium r.utmMedium "utm_medium" p7.2
  { opportunityID := p1.1, contactEmail := p2.1, stage := p3.1, amount := p4.1,
    createdAt := p5.1, utmCampaign := p6.1, utmSource := p7.1, utmMedium := p8.1,
    utmKey := generateUTMKey p6.1 p7.1 p8.1,
    quality := { p8.2 with isValid := p8.2.errorCount == 0 } }

/-! ## Deduplication

`deduplicateAdsRecords` and `deduplicateCRMRecords` are the same
single-scan algorithm instantiated at the two record types: a first-seen map
from business key to original index, survivors appended in input order,
repeats marked on their own quality copy and dropped.  The shared scan is
factored here over the business-key and duplicate-marking functions; the aux
also returns the marked dropped records (which the Go code builds and then
discards with the loop variable). -/

/-- One generic pass of the dedup scan.  `seen` maps a business key to the
index of its first occurrence; `i` is the current index. -/
def dedupScan (key : α → String) (mark : α → Nat → α)
    (seen : List (String × Nat)) (i : Nat) : List α → List α × List α
  | [] => ([], [])
  | r :: rs =>
    match seen.lookup (key r) with
    | none =>
        let rest := dedupScan key mark ((key r, i) :: seen) (i + 1) rs
        (r :: rest.1, rest.2)
    | some j =>
        let rest := dedupScan key mark seen (i + 1) rs
        (rest.1, mark r j :: rest.2)

/-- The dedup business key of an advertising record:
`date(2006-01-02) + "|" + campaign_id + "|" + channel`. -/
def adsDedupKey (r : NormalizedAdsRecord) : String :=
  r.date.formatDay ++ "|" ++ r.campaignID ++ "|" ++ r.channel

/-- The quality mutation `deduplicateAdsRecords` applies to a repeated
record before dropping it. -/
def markDuplicateAds (r : NormalizedAdsRecord) (origIdx : Nat) : NormalizedAdsRecord :=
  { r with quality :=
      { r.quality with
        fieldErrors :=
          assocSet r.quality.fieldErrors "duplicate"
            ⟨false, "Duplicate record found (original at index " ++ natStr origIdx ++ ")",
              .str (adsDedupKey r)⟩,
        errorCount := r.quality.errorCount + 1,
        isValid := false } }

/-- `deduplicateAdsRecords` together with the marked dropped records. -/
def dedupAdsFull (records : List NormalizedAdsRecord) :
    List NormalizedAdsRecord × List NormalizedAdsRecord :=
  dedupScan adsDedupKey markDuplicateAds [] 0 records

/-- `deduplicateAdsRecords` (the returned `unique` slice). -/
def deduplicateAdsRecords (records : List NormalizedAdsRecord) : List NormalizedAdsRecord :=
  (dedupAdsFull records).1

/-- The quality mutation `deduplicateCRMRecords` applies to a repeated
record before dropping it. -/
def markDuplicateCRM (r : NormalizedCRMRecord) (origIdx : Nat) : NormalizedCRMRecord :=
  { r with quality :=
      { r.quality with
        fieldErrors :=
          assocSet r.quality.fieldErrors "duplicate"
            ⟨false, "Duplicate opportunity ID found (original at index " ++ natStr origIdx ++ ")",
              .str r.opportunityID⟩,
        errorCount := r.quality.errorCount + 1,
        isValid := false } }

/-- `deduplicateCRMRecords` together with the marked dropped records (the
CRM business key is `opportunity_id` alone). -/
def dedupCRMFull (records : List NormalizedCRMRecord) :
    List NormalizedCRMRecord × List NormalizedCRMRecord :=
  dedupScan (fun r => r.opportunityID) markDuplicateCRM [] 0 records

/-- `deduplicateCRMRecords` (the returned `unique` slice). -/
def deduplicateCRMRecords (records : List NormalizedCRMRecord) : List NormalizedCRMRecord :=
  (dedupCRMFull records).1

/-- `Transformer.NormalizeAdsRecords`: normalize each raw record at its
index, then deduplicate. -/
def normalizeAdsRecords (records : List AdsRecord) : List NormalizedAdsRecord :=
  deduplicateAdsRecords (records.enum.map (fun p => normalizeAdsRecord p.1 p.2))

/-- `Transformer.NormalizeCRMRecords`. -/
def normalizeCRMRecords (records : List CRMRecord) : List NormalizedCRMRecord :=
  deduplicateCRMRecords (records.enum.map (fun p => normalizeCRMRecord p.1 p.2))

/-! ## Quality report (`GenerateQualityReport` / `identifyCommonIssues`) -/

/-- `models.QualitySummary` (scores as exact rationals). -/
structure QualitySummary where
  totalAdsRecords : Nat
  validAdsRecords : Nat
  adsQualityScore : ℚ
  totalCRMRecords : Nat
  validCRMRecords : Nat
  crmQualityScore : ℚ
  overallQualityScore : ℚ
  commonIssues : List String
deriving DecidableEq, Repr

/-- `models.DataQualityReport` (the `Timestamp` field is `time.Now()`,
ambient wall-clock data outside the core, and is not modelled). -/
structure DataQualityReport where
  summary : QualitySummary
  adsReport : List RecordQuality
  crmReport : List RecordQuality
deriving DecidableEq, Repr

/-- The descriptions of all invalid `FieldQuality` entries of one record, in
map-insertion order (the model of Go's map iteration). -/
def invalidDescs (q : RecordQuality) : List String :=
  (q.fieldErrors.filter (fun p => !p.2.isValid)).map (fun p => p.2.description)

/-- The tally base of `identifyCommonIssues`: every invalid field
description across both batches. -/
def allIssueDescs (ads : List NormalizedAdsRecord) (crm : List NormalizedCRMRecord) :
    List String :=
  ads.flatMap (fun r => invalidDescs r.quality) ++ crm.flatMap (fun r => invalidDescs r.quality)

/-- First-occurrence list of distinct elements (the model of iterating a Go
map in key-insertion order). -/
def firstOccurrences (l : List String) : List String :=
  l.foldl (fun acc k => if acc.contains k then acc else acc ++ [k]) []

/-- `identifyCommonIssues`: keep the descriptions occurring more than once,
each annotated with its occurrence count. -/
def identifyCommonIssues (ads : List NormalizedAdsRecord) (crm : List NormalizedCRMRecord) :
    List String :=
  let all := allIssueDescs ads crm
  (firstOccurrences all).filterMap (fun issue =>
    let count := all.count issue
    if count > 1 then some (issue ++ " (occurs " ++ natStr count ++ " times)") else none)

/-- `Transformer.GenerateQualityReport`. -/
def generateQualityReport (adsRecords : List NormalizedAdsRecord)
    (crmRecords : List NormalizedCRMRecord) : DataQualityReport :=
  let adsQuality := adsRecords.map (fun r => r.quality)
  let crmQuality := crmRecords.map (fun r => r.quality)
  let validAds := adsRecords.countP (fun r => r.quality.isValid)
  let validCRM := crmRecords.countP (fun r => r.quality.isValid)
  let adsScore : ℚ :=
    if adsRecords.length > 0 then (validAds : ℚ) / (adsRecords.length : ℚ) * 100 else 0
  let crmScore : ℚ :=
    if crmRecords.length > 0 then (validCRM : ℚ) / (crmRecords.length : ℚ) * 100 else 0
  let totalRecords := adsRecords.length + crmRecords.length
  let overallScore : ℚ :=
    if totalRecords > 0 then ((validAds + validCRM : Nat) : ℚ) / (totalRecords : ℚ) * 100 else 0
  { summary :=
      { totalAdsRecords := adsRecords.length
        validAdsRecords := validAds
        adsQualityScore := adsScore
        totalCRMRecords := crmRecords.length
        validCRMRecords := validCRM
        crmQualityScore := crmScore
        overallQualityScore := overallScore
        commonIssues := identifyCommonIssues adsRecords crmRecords }
    adsReport := adsQuality
    crmReport := crmQuality }

/-! ## Channel metrics (`Calculator.CalculateChannelMetrics`) -/

/-- `models.ChannelMetrics` (the trailing quality-summary fields are left at
their Go zero values by `CalculateChannelMetrics`). -/
structure ChannelMetrics where
  channel : String
  date : String
  clicks : Int
  impressions : Int
  cost : ℚ
  leads : Nat
  opportunities : Nat
  closedWon : Nat
  revenue : ℚ
  cpc : GoFloat
  cpa : GoFloat
  cvrLeadToOpp : GoFloat
  cvrOppToWon : GoFloat
  roas : GoFloat
  qualityScore : ℚ
  totalRecords : Nat
  validRecords : Nat
deriving DecidableEq, Repr

/-- The grouping key of the `adsGrouped` map:
`record.Date.Format("2006-01-02") + "|" + record.Channel`. -/
def channelGroupKey (r : NormalizedAdsRecord) : String :=
  r.date.formatDay ++ "|" ++ r.channel

/-- The channel filter `channel == "" || record.Channel == channel`. -/
def channelFilterOk (channel : String) (r : NormalizedAdsRecord) : Bool :=
  channel == "" || r.channel == channel

/-- The CRM matching loop of `CalculateChannelMetrics`: one pass over the
CRM batch accumulating `(leads, opportunities, closedWon, revenue)`, with the
stage switch applied to every matching record. -/
def crmStageFold (isMatch : NormalizedCRMRecord → Bool) (crm : List NormalizedCRMRecord) :
    Nat × Nat × Nat × ℚ :=
  crm.foldl (fun st c =>
    if isMatch c then
      if c.stage == "lead" then (st.1 + 1, st.2.1, st.2.2.1, st.2.2.2)
      else if c.stage == "opportunity" then (st.1, st.2.1 + 1, st.2.2.1, st.2.2.2)
      else if c.stage == "closed_won" then (st.1, st.2.1, st.2.2.1 + 1, st.2.2.2 + c.amount)
      else if c.stage == "closed_lost" then (st.1, st.2.1 + 1, st.2.2.1, st.2.2.2)
      else st
    else st) (0, 0, 0, 0)

/-- The per-group body of `CalculateChannelMetrics`: aggregate the ads group
(sums and the UTM-key set), join the CRM batch by day and UTM-key
membership, classify by stage, and compute the derived ratios. -/
def channelMetricsForGroup (crm : List NormalizedCRMRecord) (first : NormalizedAdsRecord)
    (adsGroup : List NormalizedAdsRecord) : ChannelMetrics :=
  let date := first.date.formatDay
  let channelName := first.channel
  let totalClicks := adsGroup.foldl (fun a r => a + r.clicks) 0
  let totalImpressions := adsGroup.foldl (fun a r => a + r.impressions) 0
  let totalCost := adsGroup.foldl (fun a r => a + r.cost) 0
  let utmKeys := adsGroup.map (fun r => r.utmKey)
  let isMatch := fun (c : NormalizedCRMRecord) =>
    c.createdAt.formatDay == date && utmKeys.contains c.utmKey
  let counts := crmStageFold isMatch crm
  let leads := counts.1
  let opportunities := counts.2.1
  let closedWon := counts.2.2.1
  let revenue := counts.2.2.2
  { channel := channelName
    date := date
    clicks := totalClicks
    impressions := totalImpressions
    cost := totalCost
    leads := leads
    opportunities := opportunities + closedWon
    closedWon := closedWon
    revenue := revenue
    cpc := safeDivide (.finite totalCost) (.finite (totalClicks : ℚ))
    cpa := safeDivide (.finite totalCost) (.finite (leads : ℚ))
    cvrLeadToOpp := safeDivide (.finite ((opportunities + closedWon : Nat) : ℚ)) (.finite (leads : ℚ))
    cvrOppToWon := safeDivide (.finite (closedWon : ℚ)) (.finite ((opportunities + closedWon : Nat) : ℚ))
    roas := safeDivide (.finite revenue) (.finite totalCost)
    qualityScore := 0
    totalRecords := 0
    validRecords := 0 }

/-- `Calculator.CalculateChannelMetrics`.  The Go code first builds the
`adsGrouped` map (per key, records in input order, under the optional channel
filter) and then iterates the map; map iteration order is modelled as
first-occurrence key order. -/
def calculateChannelMetrics (adsRecords : List NormalizedAdsRecord)
    (crmRecords : List NormalizedCRMRecord) (channel : String) : List ChannelMetrics :=
  let filtered := adsRecords.filter (channelFilterOk channel)
  let keys := firstOccurrences (filtered.map channelGroupKey)
  keys.filterMap (fun k =>
    match filtered.filter (fun r => channelGroupKey r == k) with
    | [] => none
    | first :: rest => some (channelMetricsForGroup crmRecords first (first :: rest)))

/-! ## Lemmas about `safeDivide` -/

/-- `safeDivide` always lands in the finite fragment. -/
lemma safeDivide_isFinite (n d : GoFloat) : ∃ q : ℚ, safeDivide n d = .finite q := by
  simp only [safeDivide]
  split
  · exact ⟨0, rfl⟩
  · split
    · exact ⟨0, rfl⟩
    · rename_i hni
      cases h : n.div d with
      | finite q => exact ⟨mathRound (q * 1000) / 1000, by simp [GoFloat.round3]⟩
      | nan => rw [h] at hni; simp [GoFloat.isNaN] at hni
      | inf b => rw [h] at hni; simp [GoFloat.isNaN, GoFloat.isInf] at hni

end AdmiraETL

/-- C1: `safeDivide(n, d)` returns 0 when `d == 0`; otherwise it returns
`n/d` rounded to 3 decimal places, returning 0 instead when the quotient is
NaN or infinite; for non-negative inputs `safe_divide(n, 0) == 0` and
`safe_divide(0, d>0) == 0`; and `safeDivide` never returns NaN or ±infinity. -/
theorem C1_safeDivide_spec :
    (∀ n d : AdmiraETL.GoFloat, d.isZero = true → AdmiraETL.safeDivide n d = .finite 0) ∧
    (∀ a b : ℚ, b ≠ 0 → AdmiraETL.safeDivide (.finite a) (.finite b) =
      .finite (AdmiraETL.mathRound (a / b * 1000) / 1000)) ∧
    (∀ n d : AdmiraETL.GoFloat, d.isZero = false →
      ((n.div d).isNaN || (n.div d).isInf) = true → AdmiraETL.safeDivide n d = .finite 0) ∧
    (∀ q : ℚ, 0 ≤ q → AdmiraETL.safeDivide (.finite q) (.finite 0) = .finite 0) ∧
    (∀ q : ℚ, 0 < q → AdmiraETL.safeDivide (.finite 0) (.finite q) = .finite 0) ∧
    (∀ n d : AdmiraETL.GoFloat,
      (AdmiraETL.safeDivide n d).isNaN = false ∧ (AdmiraETL.safeDivide n d).isInf = false) := by
  open AdmiraETL in
  refine ⟨?_, ?_, ?_, ?_, ?_, ?_⟩
  · intro n d h
    unfold safeDivide
    rw [h]
    rfl
  · intro a b hb
    have hz : (GoFloat.finite b).isZero = false := by simp [GoFloat.isZero, hb]
    unfold safeDivide
    rw [hz]
    simp only [Bool.false_eq_true, if_false]
    have hdiv : (GoFloat.finite a).div (GoFloat.finite b) = .finite (a / b) := by
      simp [GoFloat.div, hb]
    rw [hdiv]
    rfl
  · intro n d hz hni
    unfold safeDivide
    rw [hz]
    simp only [Bool.false_eq_true, if_false]
    rw [hni]
    rfl
  · intro q _
    unfold safeDivide
    rfl
  · intro q hq
    have hb : q ≠ 0 := ne_of_gt hq
    have hz : (GoFloat.finite q).isZero = false := by simp [GoFloat.isZero, hb]
    unfold safeDivide
    rw [hz]
    simp only [Bool.false_eq_true, if_false]
    have hdiv : (GoFloat.finite 0).div (GoFloat.finite q) = .finite (0 / q) := by
      simp [GoFloat.div, hb]
    rw [hdiv]
    norm_num [GoFloat.isNaN, GoFloat.isInf, GoFloat.round3, mathRound]
  · intro n d
    obtain ⟨q, hq⟩ := AdmiraETL.safeDivide_isFinite n d
    rw [hq]
    exact ⟨rfl, rfl⟩

/-- Witness for C1 at concrete inputs: `safeDivide(1, 2) = 0.5` through the
rounding branch, and `safeDivide(50, 0) = 0` through the zero-denominator
branch. -/
theorem C1_safeDivide_witness :
    AdmiraETL.safeDivide (.finite 1) (.finite 2) = .finite (1/2) ∧
    AdmiraETL.safeDivide (.finite 50) (.finite 0) = .finite 0 := by
  constructor
  · have h := C1_safeDivide_spec.2.1 1 2 (by norm_num)
    rw [h]
    norm_num [AdmiraETL.mathRound]
  · exact C1_safeDivide_spec.2.2.2.1 50 (by norm_num)

namespace AdmiraETL

/-! ## Lemmas about the dedup scan -/

section DedupLemmas

variable {α : Type} (key : α → String) (mark : α → Nat → α)

/-- Splitting a failed lookup over a cons cell of the seen-map. -/
lemma lookup_cons_none {k a : String} {v : Nat} {seen : List (String × Nat)}
    (h : List.lookup a ((k, v) :: seen) = none) :
    (a == k) = false ∧ List.lookup a seen = none := by
  rw [List.lookup] at h
  cases hkv : (a == k) with
  | true => rw [hkv] at h; simp at h
  | false => rw [hkv] at h; exact ⟨rfl, h⟩

/-- The survivors of the dedup scan are a sublist of the input: each is an
input record, unchanged, and input order is preserved. -/
lemma dedupScan_sublist (l : List α) : ∀ (seen : List (String × Nat)) (i : Nat),
    (dedupScan key mark seen i l).1.Sublist l := by
  induction l with
  | nil => intro seen i; simp [dedupScan]
  | cons r rs ih =>
    intro seen i
    rw [dedupScan]
    cases h : seen.lookup (key r) with
    | none => exact (ih _ _).cons₂ r
    | some j => exact (ih seen (i + 1)).cons r

/-- Every survivor's key was unseen at scan start, and survivors' keys are
pairwise distinct. -/
lemma dedupScan_fresh (l : List α) : ∀ (seen : List (String × Nat)) (i : Nat),
    (∀ x ∈ (dedupScan key mark seen i l).1, seen.lookup (key x) = none) ∧
    (dedupScan key mark seen i l).1.Pairwise (fun a b => key a ≠ key b) := by
  induction l with
  | nil => intro seen i; simp [dedupScan]
  | cons r rs ih =>
    intro seen i
    rw [dedupScan]
    cases h : seen.lookup (key r) with
    | some j => exact ih seen (i + 1)
    | none =>
      have ihs := ih ((key r, i) :: seen) (i + 1)
      constructor
      · intro x hx
        rcases List.mem_cons.1 hx with rfl | hx'
        · exact h
        · exact (lookup_cons_none (ihs.1 x hx')).2
      · refine List.pairwise_cons.2 ⟨?_, ihs.2⟩
        intro b hb
        have hbf := (lookup_cons_none (ihs.1 b hb)).1
        exact fun hkk => by simp [hkk] at hbf

/-- The first record in input order bearing a not-yet-seen key survives the
scan. -/
lemma dedupScan_find (l : List α) : ∀ (seen : List (String × Nat)) (i : Nat)
    (r0 : α) (k : String), seen.lookup k = none →
    l.find? (fun r => key r == k) = some r0 →
    r0 ∈ (dedupScan key mark seen i l).1 := by
  induction l with
  | nil => intro seen i r0 k _ hfind; simp at hfind
  | cons r rs ih =>
    intro seen i r0 k hseen hfind
    cases hk : (key r == k) with
    | true =>
      simp only [List.find?_cons, hk] at hfind
      have hr : r = r0 := by simpa using hfind
      subst hr
      have hkeq : key r = k := by simpa using hk
      have hlo : List.lookup (key r) seen = none := by rw [hkeq]; exact hseen
      rw [dedupScan, hlo]
      exact List.mem_cons_self r _
    | false =>
      simp only [List.find?_cons, hk] at hfind
      rw [dedupScan]
      cases h : seen.lookup (key r) with
      | none =>
        have hseen' : List.lookup k ((key r, i) :: seen) = none := by
          rw [List.lookup]
          have hk' : (k == key r) = false := by
            simp only [beq_eq_false_iff_ne] at hk ⊢
            exact fun h' => hk h'.symm
          rw [hk']
          exact hseen
        exact List.mem_cons_of_mem r (ih _ _ r0 k hseen' hfind)
      | some j => exact ih seen (i + 1) r0 k hseen hfind

/-- Every dropped record is a marked copy of an input record. -/
lemma dedupScan_dropped (l : List α) : ∀ (seen : List (String × Nat)) (i : Nat)
    (d : α), d ∈ (dedupScan key mark seen i l).2 → ∃ r ∈ l, ∃ j, d = mark r j := by
  induction l with
  | nil => intro seen i d hd; simp [dedupScan] at hd
  | cons r rs ih =>
    intro seen i d hd
    rw [dedupScan] at hd
    cases h : seen.lookup (key r) with
    | none =>
      rw [h] at hd
      obtain ⟨r', hr', j, hj⟩ := ih _ _ d hd
      exact ⟨r', List.mem_cons_of_mem r hr', j, hj⟩
    | some j =>
      rw [h] at hd
      rcases List.mem_cons.1 hd with rfl | hd'
      · exact ⟨r, List.mem_cons_self r _, j, rfl⟩
      · obtain ⟨r', hr', j', hj'⟩ := ih _ _ d hd'
        exact ⟨r', List.mem_cons_of_mem r hr', j', hj'⟩

/-- On a batch with pairwise-distinct unseen keys the scan is the identity. -/
lemma dedupScan_id (l : List α) : ∀ (seen : List (String × Nat)) (i : Nat),
    (∀ x ∈ l, seen.lookup (key x) = none) →
    l.Pairwise (fun a b => key a ≠ key b) →
    (dedupScan key mark seen i l).1 = l := by
  induction l with
  | nil => intro seen i _ _; simp [dedupScan]
  | cons r rs ih =>
    intro seen i hfr hpw
    rw [dedupScan, hfr r (List.mem_cons_self r rs)]
    have hrest : ∀ x ∈ rs, List.lookup (key x) ((key r, i) :: seen) = none := by
      intro x hx
      have hne : key r ≠ key x := (List.pairwise_cons.1 hpw).1 x hx
      rw [List.lookup]
      have hxr : (key x == key r) = false := by
        simp only [beq_eq_false_iff_ne]
        exact hne.symm
      rw [hxr]
      exact hfr x (List.mem_cons_of_mem r hx)
    simp [ih ((key r, i) :: seen) (i + 1) hrest (List.pairwise_cons.1 hpw).2]

/-- A list with pairwise-distinct keys holds at most one record per key. -/
lemma countP_le_one_of_pairwise (l : List α) (k : String)
    (h : l.Pairwise (fun a b => key a ≠ key b)) :
    l.countP (fun r => key r == k) ≤ 1 := by
  induction l with
  | nil => simp
  | cons r rs ih =>
    rw [List.countP_cons]
    cases hk : (key r == k) with
    | false =>
      simpa [hk] using ih (List.pairwise_cons.1 h).2
    | true =>
      have hz : rs.countP (fun x => key x == k) = 0 := by
        rw [List.countP_eq_zero]
        intro x hx
        have hne := (List.pairwise_cons.1 h).1 x hx
        have hrk : key r = k := by simpa using hk
        simp only [beq_iff_eq]
        exact fun hxk => hne (hrk.trans hxk.symm)
      simp [hk, hz]

end DedupLemmas

end AdmiraETL

/-- C3: deduplication is first-occurrence-wins, for both record kinds.  The
business key of an advertising record is `date(YYYY-MM-DD)|campaign_id|channel`
(`adsDedupKey`) and of a CRM record the `opportunity_id` alone; the earliest
record in input order for each business key appears in the output, the output
holds at most one record per business key (so every later record with a
repeated key is absent), and the output is a sublist of the input
(first-occurrence input order, records unchanged). -/
theorem C3_dedup_first_occurrence_wins :
    (∀ (l : List AdmiraETL.NormalizedAdsRecord),
      (AdmiraETL.deduplicateAdsRecords l).Sublist l ∧
      (∀ (k : String) (r0 : AdmiraETL.NormalizedAdsRecord),
        l.find? (fun r => AdmiraETL.adsDedupKey r == k) = some r0 →
        r0 ∈ AdmiraETL.deduplicateAdsRecords l) ∧
      (∀ k : String,
        (AdmiraETL.deduplicateAdsRecords l).countP
          (fun r => AdmiraETL.adsDedupKey r == k) ≤ 1)) ∧
    (∀ (l : List AdmiraETL.NormalizedCRMRecord),
      (AdmiraETL.deduplicateCRMRecords l).Sublist l ∧
      (∀ (k : String) (r0 : AdmiraETL.NormalizedCRMRecord),
        l.find? (fun r => r.opportunityID == k) = some r0 →
        r0 ∈ AdmiraETL.deduplicateCRMRecords l) ∧
      (∀ k : String,
        (AdmiraETL.deduplicateCRMRecords l).countP
          (fun r => r.opportunityID == k) ≤ 1)) := by
  constructor
  · intro l
    refine ⟨AdmiraETL.dedupScan_sublist _ _ l [] 0, ?_, ?_⟩
    · intro k r0 hfind
      exact AdmiraETL.dedupScan_find _ _ l [] 0 r0 k rfl hfind
    · intro k
      exact AdmiraETL.countP_le_one_of_pairwise _ _ k
        (AdmiraETL.dedupScan_fresh _ _ l [] 0).2
  · intro l
    refine ⟨AdmiraETL.dedupScan_sublist _ _ l [] 0, ?_, ?_⟩
    · intro k r0 hfind
      exact AdmiraETL.dedupScan_find _ _ l [] 0 r0 k rfl hfind
    · intro k
      exact AdmiraETL.countP_le_one_of_pairwise _ _ k
        (AdmiraETL.dedupScan_fresh _ _ l [] 0).2

/-- C8: deduplication is idempotent for both record kinds. -/
theorem C8_dedup_idempotent :
    (∀ l : List AdmiraETL.NormalizedAdsRecord,
      AdmiraETL.deduplicateAdsRecords (AdmiraETL.deduplicateAdsRecords l) =
        AdmiraETL.deduplicateAdsRecords l) ∧
    (∀ l : List AdmiraETL.NormalizedCRMRecord,
      AdmiraETL.deduplicateCRMRecords (AdmiraETL.deduplicateCRMRecords l) =
        AdmiraETL.deduplicateCRMRecords l) := by
  constructor
  · intro l
    exact AdmiraETL.dedupScan_id _ _ _ [] 0 (fun x _ => rfl)
      (AdmiraETL.dedupScan_fresh _ _ l [] 0).2
  · intro l
    exact AdmiraETL.dedupScan_id _ _ _ [] 0 (fun x _ => rfl)
      (AdmiraETL.dedupScan_fresh _ _ l [] 0).2

namespace AdmiraETL

/-! ## Lemmas about quality-map keys and the duplicate marking -/

/-- After a Go map assignment the assigned key is present. -/
lemma mem_keys_assocSet (m : List (String × FieldQuality)) (k : String) (v : FieldQuality) :
    k ∈ (assocSet m k v).map Prod.fst := by
  unfold assocSet
  split
  · rename_i h
    obtain ⟨p, hp, hpk⟩ := List.any_eq_true.1 h
    refine List.mem_map.2 ⟨(k, v), List.mem_map.2 ⟨p, hp, ?_⟩, rfl⟩
    simp [hpk]
  · simp

/-- The dedup marking writes a `"duplicate"` entry into the dropped ads
record's own quality map. -/
lemma markDuplicateAds_dup_key (r : NormalizedAdsRecord) (j : Nat) :
    "duplicate" ∈ (markDuplicateAds r j).quality.fieldErrors.map Prod.fst := by
  show "duplicate" ∈ (assocSet r.quality.fieldErrors "duplicate" _).map Prod.fst
  exact mem_keys_assocSet _ _ _

end AdmiraETL

/-- C4: when the deduplicator drops a duplicate advertising record, the
surviving records reach the output verbatim (a sublist of the input — their
quality objects, in particular `is_valid`, `error_count` and `field_errors`,
are untouched); every dropped record is exactly a `markDuplicateAds` copy of
an input record (its own quality gains the `"duplicate"` entry, one error
increment and `is_valid := false`); `GenerateQualityReport` scans only the
surviving records (its ads section is exactly their quality objects); and a
dropped record's mutated quality object never appears in that report. -/
theorem C4_dedup_quality_frame :
    (∀ l : List AdmiraETL.NormalizedAdsRecord,
      (AdmiraETL.deduplicateAdsRecords l).Sublist l) ∧
    (∀ (l : List AdmiraETL.NormalizedAdsRecord) (d : AdmiraETL.NormalizedAdsRecord),
      d ∈ (AdmiraETL.dedupAdsFull l).2 →
      ∃ r ∈ l, ∃ j, d = AdmiraETL.markDuplicateAds r j) ∧
    (∀ (l : List AdmiraETL.NormalizedAdsRecord) (crm : List AdmiraETL.NormalizedCRMRecord),
      (AdmiraETL.generateQualityReport (AdmiraETL.deduplicateAdsRecords l) crm).adsReport =
        (AdmiraETL.deduplicateAdsRecords l).map (fun r => r.quality)) ∧
    (∀ (l : List AdmiraETL.NormalizedAdsRecord) (crm : List AdmiraETL.NormalizedCRMRecord)
      (d : AdmiraETL.NormalizedAdsRecord),
      (∀ r ∈ l, "duplicate" ∉ r.quality.fieldErrors.map Prod.fst) →
      d ∈ (AdmiraETL.dedupAdsFull l).2 →
      d.quality ∉
        (AdmiraETL.generateQualityReport (AdmiraETL.deduplicateAdsRecords l) crm).adsReport) := by
  refine ⟨?_, ?_, ?_, ?_⟩
  · intro l
    exact AdmiraETL.dedupScan_sublist _ _ l [] 0
  · intro l d hd
    exact AdmiraETL.dedupScan_dropped _ _ l [] 0 d hd
  · intro l crm
    rfl
  · intro l crm d hnodup hd hmem
    obtain ⟨r, hr, j, rfl⟩ := AdmiraETL.dedupScan_dropped _ _ l [] 0 d hd
    have hrep : (AdmiraETL.generateQualityReport (AdmiraETL.deduplicateAdsRecords l) crm).adsReport
        = (AdmiraETL.deduplicateAdsRecords l).map (fun r => r.quality) := rfl
    rw [hrep] at hmem
    obtain ⟨r', hr', hq⟩ := List.mem_map.1 hmem
    have hr'l : r' ∈ l := (AdmiraETL.dedupScan_sublist _ _ l [] 0).subset hr'
    have hnod := hnodup r' hr'l
    rw [hq] at hnod
    exact hnod (AdmiraETL.markDuplicateAds_dup_key r j)

/-- Witness for C4 at a concrete batch: two records sharing business key
`2025-08-01|C1|google_ads`; the second is dropped, and its mutated quality
object is absent from the quality report over the surviving batch. -/
theorem C4_dedup_quality_frame_witness :
    (AdmiraETL.markDuplicateAds
        ⟨⟨2025, 8, 1, 0, 0, 0⟩, "C1", "google_ads", 0, 0, 0, "c", "s", "m", "c|s|m",
          ⟨"ads_1", true, [], 0⟩⟩ 0).quality ∉
      (AdmiraETL.generateQualityReport
        (AdmiraETL.deduplicateAdsRecords
          [⟨⟨2025, 8, 1, 0, 0, 0⟩, "C1", "google_ads", 0, 0, 0, "c", "s", "m", "c|s|m",
             ⟨"ads_0", true, [], 0⟩⟩,
           ⟨⟨2025, 8, 1, 0, 0, 0⟩, "C1", "google_ads", 0, 0, 0, "c", "s", "m", "c|s|m",
             ⟨"ads_1", true, [], 0⟩⟩]) []).adsReport :=
  C4_dedup_quality_frame.2.2.2
    [⟨⟨2025, 8, 1, 0, 0, 0⟩, "C1", "google_ads", 0, 0, 0, "c", "s", "m", "c|s|m",
       ⟨"ads_0", true, [], 0⟩⟩,
     ⟨⟨2025, 8, 1, 0, 0, 0⟩, "C1", "google_ads", 0, 0, 0, "c", "s", "m", "c|s|m",
       ⟨"ads_1", true, [], 0⟩⟩] []
    (AdmiraETL.markDuplicateAds
      ⟨⟨2025, 8, 1, 0, 0, 0⟩, "C1", "google_ads", 0, 0, 0, "c", "s", "m", "c|s|m",
        ⟨"ads_1", true, [], 0⟩⟩ 0)
    (by decide) (by decide)

namespace AdmiraETL

/-! ## Validator shape lemmas

Every field validator's effect on the quality accumulator is one
`qualityStep` with some `FieldQuality` entry. -/

lemma validateAndParseDate_shape (v n : String) (q : RecordQuality) :
    ∃ fq, (validateAndParseDate v n q).2 = qualityStep q n fq := by
  unfold validateAndParseDate qualityStep
  split
  · exact ⟨_, rfl⟩
  · split
    · exact ⟨_, rfl⟩
    · exact ⟨_, rfl⟩

lemma validateCampaignID_shape (v n : String) (q : RecordQuality) :
    ∃ fq, (validateCampaignID v n q).2 = qualityStep q n fq := by
  unfold validateCampaignID qualityStep
  split
  · exact ⟨_, rfl⟩
  · exact ⟨_, rfl⟩

lemma validateChannel_shape (v n : String) (q : RecordQuality) :
    ∃ fq, (validateChannel v n q).2 = qualityStep q n fq := by
  unfold validateChannel qualityStep
  split
  · exact ⟨_, rfl⟩
  · split
    · exact ⟨_, rfl⟩
    · exact ⟨_, rfl⟩

lemma validateClicks_shape (v : Int) (n : String) (q : RecordQuality) :
    ∃ fq, (validateClicks v n q).2 = qualityStep q n fq := by
  unfold validateClicks qualityStep
  split
  · exact ⟨_, rfl⟩
  · exact ⟨_, rfl⟩

lemma validateImpressions_shape (v : Int) (n : String) (q : RecordQuality) :
    ∃ fq, (validateImpressions v n q).2 = qualityStep q n fq := by
  unfold validateImpressions qualityStep
  split
  · exact ⟨_, rfl⟩
  · exact ⟨_, rfl⟩

lemma validateCost_shape (v : ℚ) (n : String) (q : RecordQuality) :
    ∃ fq, (validateCost v n q).2 = qualityStep q n fq := by
  unfold validateCost qualityStep
  split
  · exact ⟨_, rfl⟩
  · exact ⟨_, rfl⟩

lemma validateOpportunityID_shape (v n : String) (q : RecordQuality) :
    ∃ fq, (validateOpportunityID v n q).2 = qualityStep q n fq := by
  unfold validateOpportunityID qualityStep
  split
  · exact ⟨_, rfl⟩
  · exact ⟨_, rfl⟩

lemma validateEmail_shape (v n : String) (q : RecordQuality) :
    ∃ fq, (validateEmail v n q).2 = qualityStep q n fq := by
  unfold validateEmail qualityStep
  split
  · exact ⟨_, rfl⟩
  · split
    · exact ⟨_, rfl⟩
    · exact ⟨_, rfl⟩

lemma validateStage_shape (v n : String) (q : RecordQuality) :
    ∃ fq, (validateStage v n q).2 = qualityStep q n fq := by
  unfold validateStage qualityStep
  split
  · exact ⟨_, rfl⟩
  · split
    · exact ⟨_, rfl⟩
    · exact ⟨_, rfl⟩

lemma validateAmount_shape (v : ℚ) (n : String) (q : RecordQuality) :
    ∃ fq, (validateAmount v n q).2 = qualityStep q n fq := by
  unfold validateAmount qualityStep
  split
  · exact ⟨_, rfl⟩
  · exact ⟨_, rfl⟩

lemma validateAndParseDateTime_shape (v n : String) (q : RecordQuality) :
    ∃ fq, (validateAndParseDateTime v n q).2 = qualityStep q n fq := by
  unfold validateAndParseDateTime qualityStep
  split
  · exact ⟨_, rfl⟩
  · split
    · exact ⟨_, rfl⟩
    · exact ⟨_, rfl⟩

lemma validateUTMCampaign_shape (v n : String) (q : RecordQuality) :
    ∃ fq, (validateUTMCampaign v n q).2 = qualityStep q n fq := by
  unfold validateUTMCampaign qualityStep
  split
  · exact ⟨_, rfl⟩
  · exact ⟨_, rfl⟩

lemma validateUTMSource_shape (v : Option String) (n : String) (q : RecordQuality) :
    ∃ fq, (validateUTMSource v n q).2 = qualityStep q n fq := by
  unfold validateUTMSource qualityStep
  match v with
  | none => exact ⟨_, rfl⟩
  | some s =>
    simp only
    split
    · exact ⟨_, rfl⟩
    · exact ⟨_, rfl⟩

lemma validateUTMMedium_shape (v : Option String) (n : String) (q : RecordQuality) :
    ∃ fq, (validateUTMMedium v n q).2 = qualityStep q n fq := by
  unfold validateUTMMedium qualityStep
  match v with
  | none => exact ⟨_, rfl⟩
  | some s =>
    simp only
    split
    · exact ⟨_, rfl⟩
    · exact ⟨_, rfl⟩

/-! ## Quality-accumulator bookkeeping lemmas -/

/-- Assigning an absent key appends the binding. -/
lemma assocSet_of_not_mem (m : List (String × FieldQuality)) (k : String) (v : FieldQuality)
    (h : k ∉ m.map Prod.fst) : assocSet m k v = m ++ [(k, v)] := by
  unfold assocSet
  rw [if_neg]
  intro hany
  obtain ⟨p, hp, hpk⟩ := List.any_eq_true.1 hany
  exact h (List.mem_map.2 ⟨p, hp, by simpa using hpk⟩)

/-- A `qualityStep` at a fresh field name appends the entry. -/
lemma qualityStep_fieldErrors (q : RecordQuality) (n : String) (fq : FieldQuality)
    (h : n ∉ q.fieldErrors.map Prod.fst) :
    (qualityStep q n fq).fieldErrors = q.fieldErrors ++ [(n, fq)] :=
  assocSet_of_not_mem _ _ _ h

/-- A `qualityStep` at a fresh field name keeps
`error_count = number of invalid field entries`. -/
lemma qualityStep_inv (q : RecordQuality) (n : String) (fq : FieldQuality)
    (h : n ∉ q.fieldErrors.map Prod.fst)
    (hq : q.errorCount = q.fieldErrors.countP (fun p => !p.2.isValid)) :
    (qualityStep q n fq).errorCount =
      (qualityStep q n fq).fieldErrors.countP (fun p => !p.2.isValid) := by
  rw [qualityStep_fieldErrors q n fq h]
  show q.errorCount + cond fq.isValid 0 1 = _
  rw [List.countP_append, hq]
  cases hfq : fq.isValid <;> simp [List.countP_cons, hfq]

end AdmiraETL

namespace AdmiraETL

/-! ## Per-record normalization bookkeeping -/

/-- Quality bookkeeping of one normalized advertising record: the error map
holds exactly the nine field entries, the error count equals the number of
invalid entries, and `is_valid` is the `error_count == 0` verdict. -/
lemma normalizeAdsRecord_quality_props (i : Nat) (r : AdsRecord) :
    (normalizeAdsRecord i r).quality.fieldErrors.map Prod.fst =
      ["date", "campaign_id", "channel", "clicks", "impressions", "cost",
       "utm_campaign", "utm_source", "utm_medium"] ∧
    (normalizeAdsRecord i r).quality.errorCount =
      (normalizeAdsRecord i r).quality.fieldErrors.countP (fun p => !p.2.isValid) ∧
    (normalizeAdsRecord i r).quality.isValid =
      ((normalizeAdsRecord i r).quality.errorCount == 0) := by
  simp only [normalizeAdsRecord]
  set q0 : RecordQuality := ⟨"ads_" ++ natStr i, true, [], 0⟩ with hq0
  have k0 : q0.fieldErrors = [] := rfl
  have i0 : q0.errorCount = q0.fieldErrors.countP (fun p => !p.2.isValid) := rfl
  obtain ⟨f1, h1⟩ := validateAndParseDate_shape r.date "date" q0
  rw [h1]
  have fr1 : "date" ∉ q0.fieldErrors.map Prod.fst := by rw [k0]; simp
  have i1 := qualityStep_inv _ _ f1 fr1 i0
  have k1 := qualityStep_fieldErrors _ _ f1 fr1
  rw [k0] at k1
  set Q1 := qualityStep q0 "date" f1 with hQ1
  obtain ⟨f2, h2⟩ := validateCampaignID_shape r.campaignID "campaign_id" Q1
  rw [h2]
  have fr2 : "campaign_id" ∉ Q1.fieldErrors.map Prod.fst := by rw [k1]; simp
  have i2 := qualityStep_inv _ _ f2 fr2 i1
  have k2 := qualityStep_fieldErrors _ _ f2 fr2
  rw [k1] at k2
  set Q2 := qualityStep Q1 "campaign_id" f2 with hQ2
  obtain ⟨f3, h3⟩ := validateChannel_shape r.channel "channel" Q2
  rw [h3]
  have fr3 : "channel" ∉ Q2.fieldErrors.map Prod.fst := by rw [k2]; simp
  have i3 := qualityStep_inv _ _ f3 fr3 i2
  have k3 := qualityStep_fieldErrors _ _ f3 fr3
  rw [k2] at k3
  set Q3 := qualityStep Q2 "channel" f3 with hQ3
  obtain ⟨f4, h4⟩ := validateClicks_shape r.clicks "clicks" Q3
  rw [h4]
  have fr4 : "clicks" ∉ Q3.fieldErrors.map Prod.fst := by rw [k3]; simp
  have i4 := qualityStep_inv _ _ f4 fr4 i3
  have k4 := qualityStep_fieldErrors _ _ f4 fr4
  rw [k3] at k4
  set Q4 := qualityStep Q3 "clicks" f4 with hQ4
  obtain ⟨f5, h5⟩ := validateImpressions_shape r.impressions "impressions" Q4
  rw [h5]
  have fr5 : "impressions" ∉ Q4.fieldErrors.map Prod.fst := by rw [k4]; simp
  have i5 := qualityStep_inv _ _ f5 fr5 i4
  have k5 := qualityStep_fieldErrors _ _ f5 fr5
  rw [k4] at k5
  set Q5 := qualityStep Q4 "impressions" f5 with hQ5
  obtain ⟨f6, h6⟩ := validateCost_shape r.cost "cost" Q5
  rw [h6]
  have fr6 : "cost" ∉ Q5.fieldErrors.map Prod.fst := by rw [k5]; simp
  have i6 := qualityStep_inv _ _ f6 fr6 i5
  have k6 := qualityStep_fieldErrors _ _ f6 fr6
  rw [k5] at k6
  set Q6 := qualityStep Q5 "cost" f6 with hQ6
  obtain ⟨f7, h7⟩ := validateUTMCampaign_shape r.utmCampaign "utm_campaign" Q6
  rw [h7]
  have fr7 : "utm_campaign" ∉ Q6.fieldErrors.map Prod.fst := by rw [k6]; simp
  have i7 := qualityStep_inv _ _ f7 fr7 i6
  have k7 := qualityStep_fieldErrors _ _ f7 fr7
  rw [k6] at k7
  set Q7 := qualityStep Q6 "utm_campaign" f7 with hQ7
  obtain ⟨f8, h8⟩ := validateUTMSource_shape r.utmSource "utm_source" Q7
  rw [h8]
  have fr8 : "utm_source" ∉ Q7.fieldErrors.map Prod.fst := by rw [k7]; simp
  have i8 := qualityStep_inv _ _ f8 fr8 i7
  have k8 := qualityStep_fieldErrors _ _ f8 fr8
  rw [k7] at k8
  set Q8 := qualityStep Q7 "utm_source" f8 with hQ8
  obtain ⟨f9, h9⟩ := validateUTMMedium_shape r.utmMedium "utm_medium" Q8
  rw [h9]
  have fr9 : "utm_medium" ∉ Q8.fieldErrors.map Prod.fst := by rw [k8]; simp
  have i9 := qualityStep_inv _ _ f9 fr9 i8
  have k9 := qualityStep_fieldErrors _ _ f9 fr9
  rw [k8] at k9
  set Q9 := qualityStep Q8 "utm_medium" f9 with hQ9
  refine ⟨?_, ?_, ?_⟩
  · show Q9.fieldErrors.map Prod.fst = _
    rw [k9]
    simp
  · exact i9
  · trivial

end AdmiraETL

namespace AdmiraETL

/-- Quality bookkeeping of one normalized CRM record (eight field entries). -/
lemma normalizeCRMRecord_quality_props (i : Nat) (r : CRMRecord) :
    (normalizeCRMRecord i r).quality.fieldErrors.map Prod.fst =
      ["opportunity_id", "contact_email", "stage", "amount", "created_at",
       "utm_campaign", "utm_source", "utm_medium"] ∧
    (normalizeCRMRecord i r).quality.errorCount =
      (normalizeCRMRecord i r).quality.fieldErrors.countP (fun p => !p.2.isValid) ∧
    (normalizeCRMRecord i r).quality.isValid =
      ((normalizeCRMRecord i r).quality.errorCount == 0) := by
  simp only [normalizeCRMRecord]
  set q0 : RecordQuality := ⟨"crm_" ++ natStr i, true, [], 0⟩ with hq0
  have k0 : q0.fieldErrors = [] := rfl
  have i0 : q0.errorCount = q0.fieldErrors.countP (fun p => !p.2.isValid) := rfl
  obtain ⟨f1, h1⟩ := validateOpportunityID_shape r.opportunityID "opportunity_id" q0
  rw [h1]
  have fr1 : "opportunity_id" ∉ q0.fieldErrors.map Prod.fst := by rw [k0]; simp
  have i1 := qualityStep_inv _ _ f1 fr1 i0
  have k1 := qualityStep_fieldErrors _ _ f1 fr1
  rw [k0] at k1
  set Q1 := qualityStep q0 "opportunity_id" f1 with hQ1
  obtain ⟨f2, h2⟩ := validateEmail_shape r.contactEmail "contact_email" Q1
  rw [h2]
  have fr2 : "contact_email" ∉ Q1.fieldErrors.map Prod.fst := by rw [k1]; simp
  have i2 := qualityStep_inv _ _ f2 fr2 i1
  have k2 := qualityStep_fieldErrors _ _ f2 fr2
  rw [k1] at k2
  set Q2 := qualityStep Q1 "contact_email" f2 with hQ2
  obtain ⟨f3, h3⟩ := validateStage_shape r.stage "stage" Q2
  rw [h3]
  have fr3 : "stage" ∉ Q2.fieldErrors.map Prod.fst := by rw [k2]; simp
  have i3 := qualityStep_inv _ _ f3 fr3 i2
  have k3 := qualityStep_fieldErrors _ _ f3 fr3
  rw [k2] at k3
  set Q3 := qualityStep Q2 "stage" f3 with hQ3
  obtain ⟨f4, h4⟩ := validateAmount_shape r.amount "amount" Q3
  rw [h4]
  have fr4 : "amount" ∉ Q3.fieldErrors.map Prod.fst := by rw [k3]; simp
  have i4 := qualityStep_inv _ _ f4 fr4 i3
  have k4 := qualityStep_fieldErrors _ _ f4 fr4
  rw [k3] at k4
  set Q4 := qualityStep Q3 "amount" f4 with hQ4
  obtain ⟨f5, h5⟩ := validateAndParseDateTime_shape r.createdAt "created_at" Q4
  rw [h5]
  have fr5 : "created_at" ∉ Q4.fieldErrors.map Prod.fst := by rw [k4]; simp
  have i5 := qualityStep_inv _ _ f5 fr5 i4
  have k5 := qualityStep_fieldErrors _ _ f5 fr5
  rw [k4] at k5
  set Q5 := qualityStep Q4 "created_at" f5 with hQ5
  obtain ⟨f6, h6⟩ := validateUTMCampaign_shape r.utmCampaign "utm_campaign" Q5
  rw [h6]
  have fr6 : "utm_campaign" ∉ Q5.fieldErrors.map Prod.fst := by rw [k5]; simp
  have i6 := qualityStep_inv _ _ f6 fr6 i5
  have k6 := qualityStep_fieldErrors _ _ f6 fr6
  rw [k5] at k6
  set Q6 := qualityStep Q5 "utm_campaign" f6 with hQ6
  obtain ⟨f7, h7⟩ := validateUTMSource_shape r.utmSource "utm_source" Q6
  rw [h7]
  have fr7 : "utm_source" ∉ Q6.fieldErrors.map Prod.fst := by rw [k6]; simp
  have i7 := qualityStep_inv _ _ f7 fr7 i6
  have k7 := qualityStep_fieldErrors _ _ f7 fr7
  rw [k6] at k7
  set Q7 := qualityStep Q6 "utm_source" f7 with hQ7
  obtain ⟨f8, h8⟩ := validateUTMMedium_shape r.utmMedium "utm_medium" Q7
  rw [h8]
  have fr8 : "utm_medium" ∉ Q7.fieldErrors.map Prod.fst := by rw [k7]; simp
  have i8 := qualityStep_inv _ _ f8 fr8 i7
  have k8 := qualityStep_fieldErrors _ _ f8 fr8
  rw [k7] at k8
  set Q8 := qualityStep Q7 "utm_medium" f8 with hQ8
  refine ⟨?_, ?_, ?_⟩
  · show Q8.fieldErrors.map Prod.fst = _
    rw [k8]
    simp
  · exact i8
  · trivial

end AdmiraETL

namespace AdmiraETL

/-- Marking a dropped ads record preserves
`error_count = number of invalid field entries`. -/
lemma markDuplicateAds_inv (r : NormalizedAdsRecord) (j : Nat)
    (hfresh : "duplicate" ∉ r.quality.fieldErrors.map Prod.fst)
    (hinv : r.quality.errorCount = r.quality.fieldErrors.countP (fun p => !p.2.isValid)) :
    (markDuplicateAds r j).quality.errorCount =
      (markDuplicateAds r j).quality.fieldErrors.countP (fun p => !p.2.isValid) := by
  show r.quality.errorCount + 1 =
    (assocSet r.quality.fieldErrors "duplicate"
      ⟨false, "Duplicate record found (original at index " ++ natStr j ++ ")",
        .str (adsDedupKey r)⟩).countP (fun p => !p.2.isValid)
  rw [assocSet_of_not_mem _ _ _ hfresh, List.countP_append, hinv]
  simp

/-- Marking a dropped CRM record preserves
`error_count = number of invalid field entries`. -/
lemma markDuplicateCRM_inv (r : NormalizedCRMRecord) (j : Nat)
    (hfresh : "duplicate" ∉ r.quality.fieldErrors.map Prod.fst)
    (hinv : r.quality.errorCount = r.quality.fieldErrors.countP (fun p => !p.2.isValid)) :
    (markDuplicateCRM r j).quality.errorCount =
      (markDuplicateCRM r j).quality.fieldErrors.countP (fun p => !p.2.isValid) := by
  show r.quality.errorCount + 1 =
    (assocSet r.quality.fieldErrors "duplicate"
      ⟨false, "Duplicate opportunity ID found (original at index " ++ natStr j ++ ")",
        .str r.opportunityID⟩).countP (fun p => !p.2.isValid)
  rw [assocSet_of_not_mem _ _ _ hfresh, List.countP_append, hinv]
  simp

/-! ## Validator value lemmas (the coerced value ignores the accumulator) -/

lemma validateUTMCampaign_val (v n : String) (q : RecordQuality) :
    (validateUTMCampaign v n q).1 = if trimSpace v = "" then "unknown" else v := by
  unfold validateUTMCampaign
  split
  · rename_i h; simp [h]
  · rename_i h; simp [h]

lemma validateUTMSource_val (v : Option String) (n : String) (q : RecordQuality) :
    (validateUTMSource v n q).1 =
      match v with
      | none => "unknown"
      | some s => if trimSpace s = "" then "unknown" else trimSpace s := by
  unfold validateUTMSource
  match v with
  | none => rfl
  | some s =>
    simp only
    split
    · rename_i h; simp [h]
    · rename_i h; simp [h]

lemma validateUTMMedium_val (v : Option String) (n : String) (q : RecordQuality) :
    (validateUTMMedium v n q).1 =
      match v with
      | none => "unknown"
      | some s => if trimSpace s = "" then "unknown" else trimSpace s := by
  unfold validateUTMMedium
  match v with
  | none => rfl
  | some s =>
    simp only
    split
    · rename_i h; simp [h]
    · rename_i h; simp [h]

end AdmiraETL

/-- C5: for every record returned by `NormalizeAdsRecords` or
`NormalizeCRMRecords` (after every field validator and the duplicate check
have run), `quality.is_valid` is true iff `quality.error_count == 0`. -/
theorem C5_is_valid_iff_zero_errors :
    (∀ (raws : List AdmiraETL.AdsRecord) (rec : AdmiraETL.NormalizedAdsRecord),
      rec ∈ AdmiraETL.normalizeAdsRecords raws →
      (rec.quality.isValid = true ↔ rec.quality.errorCount = 0)) ∧
    (∀ (raws : List AdmiraETL.CRMRecord) (rec : AdmiraETL.NormalizedCRMRecord),
      rec ∈ AdmiraETL.normalizeCRMRecords raws →
      (rec.quality.isValid = true ↔ rec.quality.errorCount = 0)) := by
  constructor
  · intro raws rec hmem
    have hsub : rec ∈ raws.enum.map (fun p => AdmiraETL.normalizeAdsRecord p.1 p.2) :=
      (AdmiraETL.dedupScan_sublist _ _ _ [] 0).subset hmem
    obtain ⟨⟨i, raw⟩, _, rfl⟩ := List.mem_map.1 hsub
    rw [(AdmiraETL.normalizeAdsRecord_quality_props i raw).2.2]
    simp
  · intro raws rec hmem
    have hsub : rec ∈ raws.enum.map (fun p => AdmiraETL.normalizeCRMRecord p.1 p.2) :=
      (AdmiraETL.dedupScan_sublist _ _ _ [] 0).subset hmem
    obtain ⟨⟨i, raw⟩, _, rfl⟩ := List.mem_map.1 hsub
    rw [(AdmiraETL.normalizeCRMRecord_quality_props i raw).2.2]
    simp

/-- Witness for C5 at a concrete one-record batch of each kind. -/
theorem C5_is_valid_iff_zero_errors_witness :
    ((AdmiraETL.normalizeAdsRecord 0
        ⟨"2025-08-01", "C1", "google_ads", 1, 1, 0, "camp", some "s", some "m"⟩).quality.isValid
      = true ↔
     (AdmiraETL.normalizeAdsRecord 0
        ⟨"2025-08-01", "C1", "google_ads", 1, 1, 0, "camp", some "s", some "m"⟩).quality.errorCount
      = 0) ∧
    ((AdmiraETL.normalizeCRMRecord 0
        ⟨"O1", "a@b.co", "lead", 0, "2025-08-01T10:00:00Z", "camp", some "s", some "m"⟩).quality.isValid
      = true ↔
     (AdmiraETL.normalizeCRMRecord 0
        ⟨"O1", "a@b.co", "lead", 0, "2025-08-01T10:00:00Z", "camp", some "s", some "m"⟩).quality.errorCount
      = 0) :=
  ⟨C5_is_valid_iff_zero_errors.1
      [⟨"2025-08-01", "C1", "google_ads", 1, 1, 0, "camp", some "s", some "m"⟩] _ (by decide),
   C5_is_valid_iff_zero_errors.2
      [⟨"O1", "a@b.co", "lead", 0, "2025-08-01T10:00:00Z", "camp", some "s", some "m"⟩] _ (by decide)⟩

/-- C9: for every record returned by the normalizers, `quality.error_count`
equals the number of invalid entries in `quality.field_errors` (each
validator writes exactly one entry under a distinct field name, incrementing
exactly when the entry is invalid), and the deduplicator's `"duplicate"`
marking on a dropped record adds one invalid entry together with one
increment, preserving the equality. -/
theorem C9_error_count_counts_invalid_entries :
    (∀ (raws : List AdmiraETL.AdsRecord) (rec : AdmiraETL.NormalizedAdsRecord),
      rec ∈ AdmiraETL.normalizeAdsRecords raws →
      rec.quality.errorCount = rec.quality.fieldErrors.countP (fun p => !p.2.isValid)) ∧
    (∀ (raws : List AdmiraETL.CRMRecord) (rec : AdmiraETL.NormalizedCRMRecord),
      rec ∈ AdmiraETL.normalizeCRMRecords raws →
      rec.quality.errorCount = rec.quality.fieldErrors.countP (fun p => !p.2.isValid)) ∧
    (∀ (raws : List AdmiraETL.AdsRecord) (d : AdmiraETL.NormalizedAdsRecord),
      d ∈ (AdmiraETL.dedupAdsFull
            (raws.enum.map (fun p => AdmiraETL.normalizeAdsRecord p.1 p.2))).2 →
      d.quality.errorCount = d.quality.fieldErrors.countP (fun p => !p.2.isValid)) ∧
    (∀ (raws : List AdmiraETL.CRMRecord) (d : AdmiraETL.NormalizedCRMRecord),
      d ∈ (AdmiraETL.dedupCRMFull
            (raws.enum.map (fun p => AdmiraETL.normalizeCRMRecord p.1 p.2))).2 →
      d.quality.errorCount = d.quality.fieldErrors.countP (fun p => !p.2.isValid)) := by
  refine ⟨?_, ?_, ?_, ?_⟩
  · intro raws rec hmem
    have hsub : rec ∈ raws.enum.map (fun p => AdmiraETL.normalizeAdsRecord p.1 p.2) :=
      (AdmiraETL.dedupScan_sublist _ _ _ [] 0).subset hmem
    obtain ⟨⟨i, raw⟩, _, rfl⟩ := List.mem_map.1 hsub
    exact (AdmiraETL.normalizeAdsRecord_quality_props i raw).2.1
  · intro raws rec hmem
    have hsub : rec ∈ raws.enum.map (fun p => AdmiraETL.normalizeCRMRecord p.1 p.2) :=
      (AdmiraETL.dedupScan_sublist _ _ _ [] 0).subset hmem
    obtain ⟨⟨i, raw⟩, _, rfl⟩ := List.mem_map.1 hsub
    exact (AdmiraETL.normalizeCRMRecord_quality_props i raw).2.1
  · intro raws d hd
    obtain ⟨rec, hrec, j, rfl⟩ := AdmiraETL.dedupScan_dropped _ _ _ [] 0 d hd
    obtain ⟨⟨i, raw⟩, _, rfl⟩ := List.mem_map.1 hrec
    refine AdmiraETL.markDuplicateAds_inv _ j ?_
      (AdmiraETL.normalizeAdsRecord_quality_props i raw).2.1
    rw [(AdmiraETL.normalizeAdsRecord_quality_props i raw).1]
    simp
  · intro raws d hd
    obtain ⟨rec, hrec, j, rfl⟩ := AdmiraETL.dedupScan_dropped _ _ _ [] 0 d hd
    obtain ⟨⟨i, raw⟩, _, rfl⟩ := List.mem_map.1 hrec
    refine AdmiraETL.markDuplicateCRM_inv _ j ?_
      (AdmiraETL.normalizeCRMRecord_quality_props i raw).2.1
    rw [(AdmiraETL.normalizeCRMRecord_quality_props i raw).1]
    simp

/-- Witness for C9 at a concrete batch with one invalid field and one
dropped duplicate. -/
theorem C9_error_count_counts_invalid_entries_witness :
    ((AdmiraETL.normalizeAdsRecord 0
        ⟨"2025-08-01", "C1", "", 1, 1, 0, "camp", some "s", some "m"⟩).quality.errorCount =
      (AdmiraETL.normalizeAdsRecord 0
        ⟨"2025-08-01", "C1", "", 1, 1, 0, "camp", some "s", some "m"⟩).quality.fieldErrors.countP
        (fun p => !p.2.isValid)) ∧
    ((AdmiraETL.markDuplicateCRM
        (AdmiraETL.normalizeCRMRecord 1
          ⟨"O1", "a@b.co", "lead", 0, "2025-08-01T10:00:00Z", "camp", some "s", some "m"⟩)
        0).quality.errorCount =
      (AdmiraETL.markDuplicateCRM
        (AdmiraETL.normalizeCRMRecord 1
          ⟨"O1", "a@b.co", "lead", 0, "2025-08-01T10:00:00Z", "camp", some "s", some "m"⟩)
        0).quality.fieldErrors.countP (fun p => !p.2.isValid)) :=
  ⟨C9_error_count_counts_invalid_entries.1
      [⟨"2025-08-01", "C1", "", 1, 1, 0, "camp", some "s", some "m"⟩] _ (by decide),
   C9_error_count_counts_invalid_entries.2.2.2
      [⟨"O1", "a@b.co", "lead", 0, "2025-08-01T10:00:00Z", "camp", some "s", some "m"⟩,
       ⟨"O1", "a@b.co", "lead", 0, "2025-08-01T10:00:00Z", "camp", some "s", some "m"⟩] _
      (by decide)⟩

/-- C7: for every raw advertising record, the normalized `utm_key` is the
three validated segments joined by `|`; a segment whose raw value is missing
(nil) or empty after trimming is the string `"unknown"`, no segment is
empty, and the whole key is never empty. -/
theorem C7_utm_key_never_empty :
    ∀ (i : Nat) (r : AdmiraETL.AdsRecord),
      ∃ c s m : String,
        (AdmiraETL.normalizeAdsRecord i r).utmKey = c ++ "|" ++ s ++ "|" ++ m ∧
        c = (if AdmiraETL.trimSpace r.utmCampaign = "" then "unknown" else r.utmCampaign) ∧
        s = (match r.utmSource with
             | none => "unknown"
             | some v =>
                 if AdmiraETL.trimSpace v = "" then "unknown" else AdmiraETL.trimSpace v) ∧
        m = (match r.utmMedium with
             | none => "unknown"
             | some v =>
                 if AdmiraETL.trimSpace v = "" then "unknown" else AdmiraETL.trimSpace v) ∧
        c ≠ "" ∧ s ≠ "" ∧ m ≠ "" ∧ (AdmiraETL.normalizeAdsRecord i r).utmKey ≠ "" := by
  intro i r
  simp only [AdmiraETL.normalizeAdsRecord]
  rw [AdmiraETL.generateUTMKey, AdmiraETL.validateUTMCampaign_val,
    AdmiraETL.validateUTMSource_val, AdmiraETL.validateUTMMedium_val]
  set c0 := if AdmiraETL.trimSpace r.utmCampaign = "" then "unknown" else r.utmCampaign with hc0
  set s0 := (match r.utmSource with
             | none => "unknown"
             | some v =>
                 if AdmiraETL.trimSpace v = "" then "unknown" else AdmiraETL.trimSpace v) with hs0
  set m0 := (match r.utmMedium with
             | none => "unknown"
             | some v =>
                 if AdmiraETL.trimSpace v = "" then "unknown" else AdmiraETL.trimSpace v) with hm0
  have hct : AdmiraETL.trimSpace c0 ≠ "" := by
    rw [hc0]
    split
    · decide
    · rename_i h; exact h
  have hcne : c0 ≠ "" := by
    intro hemp
    rw [hemp] at hct
    exact hct rfl
  have hsne : s0 ≠ "" := by
    rw [hs0]
    match r.utmSource with
    | none => decide
    | some v =>
      simp only
      split
      · decide
      · rename_i h; exact h
  have hmne : m0 ≠ "" := by
    rw [hm0]
    match r.utmMedium with
    | none => decide
    | some v =>
      simp only
      split
      · decide
      · rename_i h; exact h
  rw [if_neg hct]
  refine ⟨c0, s0, m0, rfl, rfl, rfl, rfl, hcne, hsne, hmne, ?_⟩
  intro hemp
  have hlen := congrArg String.length hemp
  rw [String.length_append, String.length_append, String.length_append,
    String.length_append] at hlen
  have h1 : ("|" : String).length = 1 := rfl
  have h0 : ("" : String).length = 0 := rfl
  rw [h1, h0] at hlen
  omega

/-- C10: a CRM record whose `opportunity_id` is empty or whitespace-only is
coerced to `"unknown"` during normalization; the batch returned by
`NormalizeCRMRecords` carries pairwise-distinct opportunity ids (so at most
one record with id `"unknown"` survives, and every later blank-id record is
dropped as a duplicate); and the first normalized record in input order
bearing id `"unknown"` is the one that survives. -/
theorem C10_blank_opportunity_ids_coalesce :
    (∀ (i : Nat) (r : AdmiraETL.CRMRecord), AdmiraETL.trimSpace r.opportunityID = "" →
      (AdmiraETL.normalizeCRMRecord i r).opportunityID = "unknown") ∧
    (∀ raws : List AdmiraETL.CRMRecord,
      (AdmiraETL.normalizeCRMRecords raws).Pairwise
        (fun a b => a.opportunityID ≠ b.opportunityID)) ∧
    (∀ (raws : List AdmiraETL.CRMRecord) (r0 : AdmiraETL.NormalizedCRMRecord),
      (raws.enum.map (fun p => AdmiraETL.normalizeCRMRecord p.1 p.2)).find?
          (fun rec => rec.opportunityID == "unknown") = some r0 →
      r0 ∈ AdmiraETL.normalizeCRMRecords raws) := by
  refine ⟨?_, ?_, ?_⟩
  · intro i r h
    simp only [AdmiraETL.normalizeCRMRecord]
    show (AdmiraETL.validateOpportunityID r.opportunityID "opportunity_id" _).1 = "unknown"
    unfold AdmiraETL.validateOpportunityID
    rw [if_pos h]
  · intro raws
    exact (AdmiraETL.dedupScan_fresh _ _ _ [] 0).2
  · intro raws r0 hfind
    exact AdmiraETL.dedupScan_find _ _ _ [] 0 r0 "unknown" rfl hfind

/-- Witness for C10: a blank-id record normalizes to id `"unknown"`, and in
a batch of two blank-id records the first normalized record is the survivor. -/
theorem C10_blank_opportunity_ids_coalesce_witness :
    (AdmiraETL.normalizeCRMRecord 0
      ⟨" ", "a@b.co", "lead", 0, "2025-08-01T10:00:00Z", "camp", some "s", some "m"⟩).opportunityID
      = "unknown" ∧
    AdmiraETL.normalizeCRMRecord 0
        ⟨" ", "a@b.co", "lead", 0, "2025-08-01T10:00:00Z", "camp", some "s", some "m"⟩ ∈
      AdmiraETL.normalizeCRMRecords
        [⟨" ", "a@b.co", "lead", 0, "2025-08-01T10:00:00Z", "camp", some "s", some "m"⟩,
         ⟨"", "x@y.co", "lead", 0, "2025-08-01T10:00:00Z", "camp", some "s", some "m"⟩] :=
  ⟨C10_blank_opportunity_ids_coalesce.1 0
      ⟨" ", "a@b.co", "lead", 0, "2025-08-01T10:00:00Z", "camp", some "s", some "m"⟩ (by decide),
   C10_blank_opportunity_ids_coalesce.2.2
      [⟨" ", "a@b.co", "lead", 0, "2025-08-01T10:00:00Z", "camp", some "s", some "m"⟩,
       ⟨"", "x@y.co", "lead", 0, "2025-08-01T10:00:00Z", "camp", some "s", some "m"⟩] _
      (by decide)⟩

namespace AdmiraETL

/-! ## Lemmas about the common-issue tally -/

/-- Membership through the first-occurrence fold. -/
lemma foldl_firstOcc_mem (l : List String) : ∀ (acc : List String) (x : String),
    (x ∈ l.foldl (fun acc k => if acc.contains k then acc else acc ++ [k]) acc) ↔
      x ∈ acc ∨ x ∈ l := by
  induction l with
  | nil => intro acc x; simp
  | cons k ks ih =>
    intro acc x
    rw [List.foldl_cons]
    by_cases hc : acc.contains k = true
    · rw [if_pos hc, ih]
      have hk : k ∈ acc := by simpa using hc
      simp only [List.mem_cons]
      constructor
      · rintro (h | h)
        · exact Or.inl h
        · exact Or.inr (Or.inr h)
      · rintro (h | h | h)
        · exact Or.inl h
        · exact Or.inl (h ▸ hk)
        · exact Or.inr h
    · rw [if_neg hc, ih]
      simp only [List.mem_append, List.mem_cons, List.mem_singleton]
      tauto

/-- `firstOccurrences` is the distinct-members list. -/
lemma firstOccurrences_mem (l : List String) (x : String) :
    x ∈ firstOccurrences l ↔ x ∈ l := by
  unfold firstOccurrences
  rw [foldl_firstOcc_mem]
  simp

/-- The strings `identifyCommonIssues` reports are exactly the invalid-entry
descriptions occurring more than once, annotated with their counts. -/
lemma identifyCommonIssues_mem (ads : List NormalizedAdsRecord)
    (crm : List NormalizedCRMRecord) (s : String) :
    s ∈ identifyCommonIssues ads crm ↔
      ∃ d ∈ allIssueDescs ads crm, (allIssueDescs ads crm).count d > 1 ∧
        s = d ++ " (occurs " ++ natStr ((allIssueDescs ads crm).count d) ++ " times)" := by
  unfold identifyCommonIssues
  simp only [List.mem_filterMap]
  constructor
  · rintro ⟨d, hd, hf⟩
    rw [firstOccurrences_mem] at hd
    by_cases hc : (allIssueDescs ads crm).count d > 1
    · rw [if_pos hc] at hf
      exact ⟨d, hd, hc, (Option.some.inj hf).symm⟩
    · rw [if_neg hc] at hf
      simp at hf
  · rintro ⟨d, hd, hc, rfl⟩
    refine ⟨d, (firstOccurrences_mem _ _).2 hd, ?_⟩
    rw [if_pos hc]

end AdmiraETL

/-- C6: `GenerateQualityReport` computes per-batch scores
`valid/total*100` (0 on an empty batch), the overall score
`(valid_ads+valid_crm)/(total_ads+total_crm)*100` (0 when both batches are
empty), and a common-issues list holding exactly the invalid-entry
descriptions occurring more than once, each annotated with its count; in
particular 10 advertising records with 8 valid give `AdsQualityScore = 80`. -/
theorem C6_quality_report_scores :
    ∀ (ads : List AdmiraETL.NormalizedAdsRecord) (crm : List AdmiraETL.NormalizedCRMRecord),
      (ads.length = 0 →
        (AdmiraETL.generateQualityReport ads crm).summary.adsQualityScore = 0) ∧
      (ads.length ≠ 0 →
        (AdmiraETL.generateQualityReport ads crm).summary.adsQualityScore =
          ((ads.countP (fun r => r.quality.isValid) : ℚ) / (ads.length : ℚ)) * 100) ∧
      (crm.length = 0 →
        (AdmiraETL.generateQualityReport ads crm).summary.crmQualityScore = 0) ∧
      (crm.length ≠ 0 →
        (AdmiraETL.generateQualityReport ads crm).summary.crmQualityScore =
          ((crm.countP (fun r => r.quality.isValid) : ℚ) / (crm.length : ℚ)) * 100) ∧
      (ads.length + crm.length = 0 →
        (AdmiraETL.generateQualityReport ads crm).summary.overallQualityScore = 0) ∧
      (ads.length + crm.length ≠ 0 →
        (AdmiraETL.generateQualityReport ads crm).summary.overallQualityScore =
          (((ads.countP (fun r => r.quality.isValid) +
             crm.countP (fun r => r.quality.isValid) : Nat) : ℚ) /
            ((ads.length + crm.length : Nat) : ℚ)) * 100) ∧
      (∀ s : String,
        s ∈ (AdmiraETL.generateQualityReport ads crm).summary.commonIssues ↔
          ∃ d ∈ AdmiraETL.allIssueDescs ads crm,
            (AdmiraETL.allIssueDescs ads crm).count d > 1 ∧
            s = d ++ " (occurs " ++
              AdmiraETL.natStr ((AdmiraETL.allIssueDescs ads crm).count d) ++ " times)") ∧
      (ads.length = 10 → ads.countP (fun r => r.quality.isValid) = 8 →
        (AdmiraETL.generateQualityReport ads crm).summary.adsQualityScore = 80) := by
  intro ads crm
  refine ⟨?_, ?_, ?_, ?_, ?_, ?_, ?_, ?_⟩
  · intro h
    show (if ads.length > 0 then _ else (0 : ℚ)) = 0
    rw [if_neg (by omega)]
  · intro h
    show (if ads.length > 0 then _ else (0 : ℚ)) = _
    rw [if_pos (by omega)]
  · intro h
    show (if crm.length > 0 then _ else (0 : ℚ)) = 0
    rw [if_neg (by omega)]
  · intro h
    show (if crm.length > 0 then _ else (0 : ℚ)) = _
    rw [if_pos (by omega)]
  · intro h
    show (if ads.length + crm.length > 0 then _ else (0 : ℚ)) = 0
    rw [if_neg (by omega)]
  · intro h
    show (if ads.length + crm.length > 0 then _ else (0 : ℚ)) = _
    rw [if_pos (by omega)]
  · intro s
    exact AdmiraETL.identifyCommonIssues_mem ads crm s
  · intro hlen hvalid
    show (if ads.length > 0 then
        ((ads.countP (fun r => r.quality.isValid) : ℚ) / (ads.length : ℚ)) * 100
      else (0 : ℚ)) = 80
    rw [if_pos (by omega), hlen, hvalid]
    norm_num

/-- Witness for C6: a batch of 10 advertising records of which 8 are valid
scores `AdsQualityScore = 80`. -/
theorem C6_quality_report_scores_witness :
    (AdmiraETL.generateQualityReport
      (List.replicate 8
          (⟨⟨2025, 8, 1, 0, 0, 0⟩, "C", "google_ads", 0, 0, 0, "c", "s", "m", "c|s|m",
            ⟨"a", true, [], 0⟩⟩ : AdmiraETL.NormalizedAdsRecord) ++
        [⟨⟨2025, 8, 2, 0, 0, 0⟩, "C", "google_ads", 0, 0, 0, "c", "s", "m", "c|s|m",
           ⟨"b", false, [], 1⟩⟩,
         ⟨⟨2025, 8, 3, 0, 0, 0⟩, "C", "google_ads", 0, 0, 0, "c", "s", "m", "c|s|m",
           ⟨"c", false, [], 1⟩⟩])
      []).summary.adsQualityScore = 80 :=
  (C6_quality_report_scores
    (List.replicate 8
        (⟨⟨2025, 8, 1, 0, 0, 0⟩, "C", "google_ads", 0, 0, 0, "c", "s", "m", "c|s|m",
          ⟨"a", true, [], 0⟩⟩ : AdmiraETL.NormalizedAdsRecord) ++
      [⟨⟨2025, 8, 2, 0, 0, 0⟩, "C", "google_ads", 0, 0, 0, "c", "s", "m", "c|s|m",
         ⟨"b", false, [], 1⟩⟩,
       ⟨⟨2025, 8, 3, 0, 0, 0⟩, "C", "google_ads", 0, 0, 0, "c", "s", "m", "c|s|m",
         ⟨"c", false, [], 1⟩⟩])
    []).2.2.2.2.2.2.2 (by decide) (by decide)

namespace AdmiraETL

/-! ## Day-format strings contain no `|`, so group keys split uniquely -/

/-- `Nat.digitChar` of a value below ten is a decimal digit. -/
lemma digitChar_digit {d : Nat} (h : d < 10) : isDigitCh (Nat.digitChar d) = true := by
  interval_cases d <;> decide

/-- Every character the core digit printer emits over base ten is a digit. -/
lemma toDigitsCore_digits : ∀ (fuel n : Nat) (ds : List Char),
    (∀ c ∈ ds, isDigitCh c = true) →
    ∀ c ∈ Nat.toDigitsCore 10 fuel n ds, isDigitCh c = true := by
  intro fuel
  induction fuel with
  | zero =>
    intro n ds h c hc
    rw [Nat.toDigitsCore] at hc
    exact h c hc
  | succ f ih =>
    intro n ds h c hc
    simp only [Nat.toDigitsCore] at hc
    have hbase : ∀ x ∈ Nat.digitChar (n % 10) :: ds, isDigitCh x = true := by
      intro x hx
      rcases List.mem_cons.1 hx with rfl | hx'
      · exact digitChar_digit (Nat.mod_lt _ (by norm_num))
      · exact h x hx'
    by_cases h0 : n / 10 = 0
    · rw [if_pos h0] at hc
      exact hbase c hc
    · rw [if_neg h0] at hc
      exact ih (n / 10) _ hbase c hc

/-- Every character of a formatted natural number is a digit. -/
lemma natChars_digits (n : Nat) : ∀ c ∈ natChars n, isDigitCh c = true := by
  intro c hc
  rw [natChars, Nat.toDigits] at hc
  exact toDigitsCore_digits _ n [] (by simp) c hc

/-- Every character of a zero-padded two-digit field is a digit. -/
lemma pad2_digits (n : Nat) : ∀ c ∈ pad2 n, isDigitCh c = true := by
  intro c hc
  unfold pad2 at hc
  rcases List.mem_append.1 hc with h | h
  · rw [List.eq_of_mem_replicate h]; decide
  · exact natChars_digits n c h

/-- Every character of a zero-padded four-digit field is a digit. -/
lemma pad4_digits (n : Nat) : ∀ c ∈ pad4 n, isDigitCh c = true := by
  intro c hc
  unfold pad4 at hc
  rcases List.mem_append.1 hc with h | h
  · rw [List.eq_of_mem_replicate h]; decide
  · exact natChars_digits n c h

/-- Every character of a formatted day is a digit or a dash. -/
lemma formatDayChars_classes (d : GoDate) :
    ∀ c ∈ d.formatDayChars, isDigitCh c = true ∨ c = '-' := by
  intro c hc
  unfold GoDate.formatDayChars at hc
  rcases List.mem_append.1 hc with h | h
  · rcases List.mem_append.1 h with h2 | h2
    · exact Or.inl (pad4_digits _ c h2)
    · rcases List.mem_cons.1 h2 with rfl | h3
      · exact Or.inr rfl
      · exact Or.inl (pad2_digits _ c h3)
  · rcases List.mem_cons.1 h with rfl | h3
    · exact Or.inr rfl
    · exact Or.inl (pad2_digits _ c h3)

/-- The pipe never occurs in a formatted day. -/
lemma pipe_not_mem_formatDayChars (d : GoDate) : '|' ∉ d.formatDayChars := by
  intro hmem
  rcases formatDayChars_classes d '|' hmem with h | h
  · exact absurd h (by decide)
  · exact absurd h (by decide)

/-- Splitting a character list at a pipe absent from both prefixes is
unambiguous. -/
lemma append_pipe_inj : ∀ (l1 t1 l2 t2 : List Char), '|' ∉ l1 → '|' ∉ t1 →
    l1 ++ '|' :: l2 = t1 ++ '|' :: t2 → l1 = t1 ∧ l2 = t2 := by
  intro l1
  induction l1 with
  | nil =>
    intro t1 l2 t2 _ ht1 heq
    cases t1 with
    | nil => simpa using heq
    | cons b t1' =>
      simp only [List.nil_append, List.cons_append, List.cons.injEq] at heq
      exact absurd (heq.1 ▸ List.mem_cons_self b t1') ht1
  | cons a l1' ih =>
    intro t1 l2 t2 hl1 ht1 heq
    cases t1 with
    | nil =>
      simp only [List.nil_append, List.cons_append, List.cons.injEq] at heq
      exact absurd (heq.1 ▸ List.mem_cons_self a l1') hl1
    | cons b t1' =>
      simp only [List.cons_append, List.cons.injEq] at heq
      obtain ⟨rfl, heq'⟩ := heq
      have hl1' : '|' ∉ l1' := fun h => hl1 (List.mem_cons_of_mem _ h)
      have ht1' : '|' ∉ t1' := fun h => ht1 (List.mem_cons_of_mem _ h)
      obtain ⟨rfl, rfl⟩ := ih t1' l2 t2 hl1' ht1' heq'
      exact ⟨rfl, rfl⟩

/-- Two records produce the same `adsGrouped` key iff they agree on the
formatted day and the channel. -/
lemma channelGroupKey_eq_iff (r1 r2 : NormalizedAdsRecord) :
    channelGroupKey r1 = channelGroupKey r2 ↔
      (r1.date.formatDay = r2.date.formatDay ∧ r1.channel = r2.channel) := by
  constructor
  · intro h
    unfold channelGroupKey GoDate.formatDay at h
    have hdata := congrArg String.data h
    simp only [String.data_append] at hdata
    have hdata' : r1.date.formatDayChars ++ '|' :: r1.channel.data =
        r2.date.formatDayChars ++ '|' :: r2.channel.data := by
      simpa using hdata
    obtain ⟨h1, h2⟩ := append_pipe_inj _ _ _ _
      (pipe_not_mem_formatDayChars r1.date) (pipe_not_mem_formatDayChars r2.date) hdata'
    constructor
    · unfold GoDate.formatDay
      rw [h1]
    · exact String.ext h2
  · intro ⟨h1, h2⟩
    unfold channelGroupKey
    rw [h1, h2]

end AdmiraETL

namespace AdmiraETL

/-- The CRM loop of `CalculateChannelMetrics` counts matched records by
stage: leads, raw opportunities (`opportunity` and `closed_lost`), wins, and
summed win revenue. -/
lemma crmStageFold_spec (isMatch : NormalizedCRMRecord → Bool) :
    ∀ (crm : List NormalizedCRMRecord) (st : Nat × Nat × Nat × ℚ),
      crm.foldl (fun st c =>
        if isMatch c then
          if c.stage == "lead" then (st.1 + 1, st.2.1, st.2.2.1, st.2.2.2)
          else if c.stage == "opportunity" then (st.1, st.2.1 + 1, st.2.2.1, st.2.2.2)
          else if c.stage == "closed_won" then (st.1, st.2.1, st.2.2.1 + 1, st.2.2.2 + c.amount)
          else if c.stage == "closed_lost" then (st.1, st.2.1 + 1, st.2.2.1, st.2.2.2)
          else st
        else st) st =
      (st.1 + crm.countP (fun c => isMatch c && c.stage == "lead"),
       st.2.1 + crm.countP
         (fun c => isMatch c && (c.stage == "opportunity" || c.stage == "closed_lost")),
       st.2.2.1 + crm.countP (fun c => isMatch c && c.stage == "closed_won"),
       st.2.2.2 + ((crm.filter (fun c => isMatch c && c.stage == "closed_won")).map
         (fun c => c.amount)).sum) := by
  intro crm
  induction crm with
  | nil => intro st; simp
  | cons c cs ih =>
    intro st
    rw [List.foldl_cons, ih]
    simp only [List.countP_cons, List.filter_cons]
    by_cases hm : isMatch c = true
    · by_cases h1 : c.stage = "lead"
      · simp [hm, h1, Prod.mk.injEq]
        try repeat' apply And.intro
        all_goals first | omega | ring | trivial
      · by_cases h2 : c.stage = "opportunity"
        · simp [hm, h1, h2, Prod.mk.injEq]
          try repeat' apply And.intro
          all_goals first | omega | ring | trivial
        · by_cases h3 : c.stage = "closed_won"
          · simp [hm, h1, h2, h3, Prod.mk.injEq]
            try repeat' apply And.intro
            all_goals first | omega | ring | trivial
          · by_cases h4 : c.stage = "closed_lost"
            · simp [hm, h1, h2, h3, h4, Prod.mk.injEq]
              try repeat' apply And.intro
              all_goals first | omega | ring | trivial
            · simp [hm, h1, h2, h3, h4, Prod.mk.injEq]
              try repeat' apply And.intro
              all_goals first | omega | ring | trivial
    · have hm' : isMatch c = false := by simpa using hm
      simp [hm']

end AdmiraETL

namespace AdmiraETL

/-- The classification loop evaluated: matched-by-stage counts and summed
win revenue. -/
lemma crmStageFold_eval (isMatch : NormalizedCRMRecord → Bool)
    (crm : List NormalizedCRMRecord) :
    crmStageFold isMatch crm =
      (crm.countP (fun c => isMatch c && c.stage == "lead"),
       crm.countP
         (fun c => isMatch c && (c.stage == "opportunity" || c.stage == "closed_lost")),
       crm.countP (fun c => isMatch c && c.stage == "closed_won"),
       ((crm.filter (fun c => isMatch c && c.stage == "closed_won")).map
         (fun c => c.amount)).sum) := by
  unfold crmStageFold
  rw [crmStageFold_spec]
  simp

/-- The fields of one per-group metrics row, read off the definition. -/
lemma channelMetricsForGroup_fields (crm : List NormalizedCRMRecord)
    (first : NormalizedAdsRecord) (g : List NormalizedAdsRecord) :
    (channelMetricsForGroup crm first g).date = first.date.formatDay ∧
    (channelMetricsForGroup crm first g).channel = first.channel ∧
    (channelMetricsForGroup crm first g).leads =
      (crmStageFold (fun c => c.createdAt.formatDay == first.date.formatDay &&
        (g.map (fun r => r.utmKey)).contains c.utmKey) crm).1 ∧
    (channelMetricsForGroup crm first g).closedWon =
      (crmStageFold (fun c => c.createdAt.formatDay == first.date.formatDay &&
        (g.map (fun r => r.utmKey)).contains c.utmKey) crm).2.2.1 ∧
    (channelMetricsForGroup crm first g).revenue =
      (crmStageFold (fun c => c.createdAt.formatDay == first.date.formatDay &&
        (g.map (fun r => r.utmKey)).contains c.utmKey) crm).2.2.2 ∧
    (channelMetricsForGroup crm first g).opportunities =
      (crmStageFold (fun c => c.createdAt.formatDay == first.date.formatDay &&
        (g.map (fun r => r.utmKey)).contains c.utmKey) crm).2.1 +
      (crmStageFold (fun c => c.createdAt.formatDay == first.date.formatDay &&
        (g.map (fun r => r.utmKey)).contains c.utmKey) crm).2.2.1 :=
  ⟨rfl, rfl, rfl, rfl, rfl, rfl⟩

end AdmiraETL

/-- C2: in `CalculateChannelMetrics`, each output row for a `(date, channel)`
group counts a CRM record exactly when its `created_at` day equals the
group's date and its `utm_key` belongs to the UTM-key set of the group's
advertising records; matched records are classified by stage (`lead` →
leads, `opportunity` and `closed_lost` → the raw opportunity tally,
`closed_won` → closed_won and its amount into revenue), and the reported
`opportunities` field is the raw opportunity tally plus the closed_won
count.  (The group's records are exactly the channel-filtered ads records
sharing the row's formatted date and channel.) -/
theorem C2_channel_metrics_crm_join :
    ∀ (ads : List AdmiraETL.NormalizedAdsRecord) (crm : List AdmiraETL.NormalizedCRMRecord)
      (channel : String) (m : AdmiraETL.ChannelMetrics),
      m ∈ AdmiraETL.calculateChannelMetrics ads crm channel →
      (channel = "" ∨ m.channel = channel) ∧
      m.leads = crm.countP (fun c =>
        (c.createdAt.formatDay == m.date &&
          ((ads.filter (fun r => r.date.formatDay == m.date && r.channel == m.channel)).map
            (fun r => r.utmKey)).contains c.utmKey) && c.stage == "lead") ∧
      m.closedWon = crm.countP (fun c =>
        (c.createdAt.formatDay == m.date &&
          ((ads.filter (fun r => r.date.formatDay == m.date && r.channel == m.channel)).map
            (fun r => r.utmKey)).contains c.utmKey) && c.stage == "closed_won") ∧
      m.revenue = ((crm.filter (fun c =>
        (c.createdAt.formatDay == m.date &&
          ((ads.filter (fun r => r.date.formatDay == m.date && r.channel == m.channel)).map
            (fun r => r.utmKey)).contains c.utmKey) && c.stage == "closed_won")).map
        (fun c => c.amount)).sum ∧
      m.opportunities = crm.countP (fun c =>
        (c.createdAt.formatDay == m.date &&
          ((ads.filter (fun r => r.date.formatDay == m.date && r.channel == m.channel)).map
            (fun r => r.utmKey)).contains c.utmKey) &&
        (c.stage == "opportunity" || c.stage == "closed_lost")) + m.closedWon := by
  intro ads crm channel m hm
  unfold AdmiraETL.calculateChannelMetrics at hm
  obtain ⟨k, hk, hfk⟩ := List.mem_filterMap.1 hm
  cases hfil : (ads.filter (AdmiraETL.channelFilterOk channel)).filter
      (fun r => AdmiraETL.channelGroupKey r == k) with
  | nil => rw [hfil] at hfk; simp at hfk
  | cons first rest =>
    rw [hfil] at hfk
    simp only [Option.some.injEq] at hfk
    subst hfk
    have hfirstmem : first ∈ (ads.filter (AdmiraETL.channelFilterOk channel)).filter
        (fun r => AdmiraETL.channelGroupKey r == k) := by
      rw [hfil]; exact List.mem_cons_self first rest
    have hf1 := List.mem_filter.1 hfirstmem
    have hf2 := List.mem_filter.1 hf1.1
    have hkfirst : AdmiraETL.channelGroupKey first = k := by simpa using hf1.2
    have hfok : AdmiraETL.channelFilterOk channel first = true := hf2.2
    obtain ⟨hdate, hchan, hleads, hwon, hrev, hopp⟩ :=
      AdmiraETL.channelMetricsForGroup_fields crm first (first :: rest)
    -- the claimed group equals the grouped slice
    have hGG : ads.filter (fun r => r.date.formatDay == first.date.formatDay &&
        r.channel == first.channel) = first :: rest := by
      rw [← hfil, List.filter_filter]
      refine List.filter_congr ?_
      intro r _
      by_cases hkey : AdmiraETL.channelGroupKey r = k
      · have hpair := (AdmiraETL.channelGroupKey_eq_iff r first).1 (by rw [hkey, hkfirst])
        have hfokr : AdmiraETL.channelFilterOk channel r = true := by
          unfold AdmiraETL.channelFilterOk at hfok ⊢
          rw [hpair.2]
          exact hfok
        simp [hfokr, hkey, hpair.1, hpair.2]
      · have hpair' : ¬(r.date.formatDay = first.date.formatDay ∧
            r.channel = first.channel) := by
          intro hp
          exact hkey (by rw [(AdmiraETL.channelGroupKey_eq_iff r first).2 hp, hkfirst])
        have h1 : (AdmiraETL.channelGroupKey r == k) = false := by simp [hkey]
        rcases not_and_or.1 hpair' with h | h
        · simp [h1, h]
        · simp [h1, h]
    refine ⟨?_, ?_, ?_, ?_, ?_⟩
    · unfold AdmiraETL.channelFilterOk at hfok
      have hor : (channel == "") = true ∨ (first.channel == channel) = true := by
        simpa using hfok
      rcases hor with h | h
      · exact Or.inl (by simpa using h)
      · rw [hchan]
        exact Or.inr (by simpa using h)
    · rw [hleads, AdmiraETL.crmStageFold_eval, hdate, hchan, hGG]
    · rw [hwon, AdmiraETL.crmStageFold_eval, hdate, hchan, hGG]
    · rw [hrev, AdmiraETL.crmStageFold_eval, hdate, hchan, hGG]
    · rw [hopp, hwon, AdmiraETL.crmStageFold_eval, hdate, hchan, hGG]

/-- Witness for C2: one advertising record grouped under
`(2025-08-01, google_ads)` with an exact channel filter; the produced row
satisfies the channel-filter disjunct. -/
theorem C2_channel_metrics_crm_join_witness :
    ("google_ads" : String) = "" ∨
      (AdmiraETL.channelMetricsForGroup []
        ⟨⟨2025, 8, 1, 0, 0, 0⟩, "C1", "google_ads", 0, 0, 0, "c", "s", "m", "c|s|m",
          ⟨"ads_0", true, [], 0⟩⟩
        [⟨⟨2025, 8, 1, 0, 0, 0⟩, "C1", "google_ads", 0, 0, 0, "c", "s", "m", "c|s|m",
           ⟨"ads_0", true, [], 0⟩⟩]).channel = "google_ads" :=
  (C2_channel_metrics_crm_join
    [⟨⟨2025, 8, 1, 0, 0, 0⟩, "C1", "google_ads", 0, 0, 0, "c", "s", "m", "c|s|m",
       ⟨"ads_0", true, [], 0⟩⟩] [] "google_ads"
    (AdmiraETL.channelMetricsForGroup []
      ⟨⟨2025, 8, 1, 0, 0, 0⟩, "C1", "google_ads", 0, 0, 0, "c", "s", "m", "c|s|m",
        ⟨"ads_0", true, [], 0⟩⟩
      [⟨⟨2025, 8, 1, 0, 0, 0⟩, "C1", "google_ads", 0, 0, 0, "c", "s", "m", "c|s|m",
         ⟨"ads_0", true, [], 0⟩⟩])
    (List.mem_cons_self _ _)).1
